import Mathlib

/-!
Verification of the SkillBridge AI roadmap-generation engine
(`skillbridge_backend/roadmaps/integrations.py`).

This file gives a shallow embedding of the engine's data model and
operations: the `RateLimiter`, `CostTracker` and `CircuitBreaker`
resilience primitives, cache-key normalization, the response
parser/validator, the deterministic fallback ("enhanced mock") roadmap
generator, and the public `generate_roadmap` orchestrator.

Modelling conventions:
- Python floats (`time.time()` instants, dollar costs) are modelled as
  exact rationals `ℚ`; `int(x)` truncation of non-negative products is
  modelled with floor, and Python's `round` (round-half-to-even) is
  modelled by `pyRound`.
- Python strings are modelled by `String`; `str.lower`, `str.strip`,
  single-character `str.replace` and `sorted` on string lists are
  re-implemented on the character list so that everything reduces in the
  kernel.  `str.lower` is modelled on the ASCII range, which covers every
  string the engine manipulates.
- Python dicts (including every JSON object decoded by `json.loads`) are
  modelled as insertion-ordered association lists with unique keys, with
  `get`/`setdefault`/item-assignment/`update` given Python's semantics.
- Wall-clock reads (`time.time()`, `datetime.now()`) inside one
  `generate_roadmap` call are modelled as one ambient instant `now : ℚ`
  plus one calendar day `today : ℕ` passed per call; no claim below
  depends on the clock advancing within a single call.
- The external completion client is an oracle `clientBehavior : ℕ →
  ClientResult` giving the outcome of each attempt; `ISO` timestamps are
  represented by their numeric instant.
- The Django cache is an association list from key strings to stored
  values; TTL expiry is modelled as absence of the entry.
- The MD5 digest inside `_generate_cache_key` is a fixed deterministic
  function of the serialized `cache_string`; the claims proved here only
  ever need that equal cache strings yield equal keys, so the key is
  modelled as the canonical serialized string prefixed by `"roadmap_"`.
-/

/-! ## Python string primitives -/

/-- ASCII case-lowering of one character, as `str.lower` acts on the
ASCII range (the only range the engine's inputs use). -/
def pyCharLower (c : Char) : Char :=
  if 'A' ≤ c ∧ c ≤ 'Z' then Char.ofNat (c.toNat + 32) else c

/-- Python `str.lower` (ASCII fragment). -/
def pyLower (s : String) : String := ⟨s.data.map pyCharLower⟩

/-- Python whitespace as recognized by `str.strip`. -/
def isPySpace (c : Char) : Bool :=
  c = ' ' ∨ c = '\t' ∨ c = '\n' ∨ c = '\r' ∨ c = '\x0b' ∨ c = '\x0c'

/-- Python `str.strip()`: drop leading and trailing whitespace. -/
def pyStrip (s : String) : String :=
  ⟨((s.data.dropWhile isPySpace).reverse.dropWhile isPySpace).reverse⟩

/-- Python `str.replace(a, b)` for single-character patterns (the only
form the engine uses: `' ' → '_'` and `' ' → '-'`). -/
def pyReplaceChar (s : String) (a b : Char) : String :=
  ⟨s.data.map (fun c => if c = a then b else c)⟩

/-- Lexicographic comparison of character lists by code point, Python's
string order. -/
def charsLe : List Char → List Char → Bool
  | [], _ => true
  | _ :: _, [] => false
  | a :: as, b :: bs =>
    if a.toNat < b.toNat then true
    else if b.toNat < a.toNat then false
    else charsLe as bs

/-- Python's `<=` on strings: code-point lexicographic order. -/
def pyStrLe (s t : String) : Prop := charsLe s.data t.data = true

instance : DecidableRel pyStrLe := fun s t => by unfold pyStrLe; infer_instance

/-- Python `sorted` on a list of strings: the unique `pyStrLe`-sorted
permutation (realized by insertion sort; Python's timsort returns the
same list since `pyStrLe` is a total order). -/
def pySorted (l : List String) : List String := List.insertionSort pyStrLe l

/-! ## Python round (round-half-to-even) on exact rationals -/

/-- Round a rational to the nearest integer, ties to even — the rounding
Python's built-in `round` performs. -/
def roundHalfEven (q : ℚ) : ℤ :=
  let f : ℤ := ⌊q⌋
  let r : ℚ := q - f
  if r < 1/2 then f
  else if 1/2 < r then f + 1
  else if f % 2 = 0 then f else f + 1

/-- Python `round(q, ndigits)` on the exact-rational model of a float. -/
def pyRound (q : ℚ) (ndigits : ℕ) : ℚ :=
  (roundHalfEven (q * 10 ^ ndigits) : ℚ) / 10 ^ ndigits

/-! ## JSON-style values: the model of Python dicts / `json.loads` output -/

/-- Dynamic values: Python scalars, lists and (insertion-ordered) dicts,
exactly the universe `json.loads` produces and the engine's roadmap
dictionaries live in. -/
inductive J where
  | null : J
  | bool (b : Bool) : J
  | num (q : ℚ) : J
  | str (s : String) : J
  | arr (xs : List J) : J
  | obj (kvs : List (String × J)) : J

/-- Python truthiness (`if cached_result:` / `if roadmap_data:`). -/
def J.truthy : J → Bool
  | .null => false
  | .bool b => b
  | .num q => q ≠ 0
  | .str s => s ≠ ""
  | .arr xs => !xs.isEmpty
  | .obj kvs => !kvs.isEmpty

/-- Dict lookup on an association list: first binding wins (keys are
unique by construction, as in a Python dict). -/
def dictFind (kvs : List (String × J)) (k : String) : Option J :=
  match kvs with
  | [] => none
  | (k', v) :: rest => if k' = k then some v else dictFind rest k

/-- Python `k in d`. -/
def dictHas (kvs : List (String × J)) (k : String) : Bool :=
  (dictFind kvs k).isSome

/-- Python `d.get(k, default)`. -/
def dictGetD (kvs : List (String × J)) (k : String) (default : J) : J :=
  (dictFind kvs k).getD default

/-- Python `d[k] = v`: replace the value in place if the key exists
(keeping its position), otherwise append the new binding. -/
def dictSet (kvs : List (String × J)) (k : String) (v : J) : List (String × J) :=
  match kvs with
  | [] => [(k, v)]
  | (k', v') :: rest =>
    if k' = k then (k', v) :: rest else (k', v') :: dictSet rest k v

/-- Python `d.setdefault(k, v)`: insert only if the key is absent. -/
def dictSetdefault (kvs : List (String × J)) (k : String) (v : J) :
    List (String × J) :=
  if dictHas kvs k then kvs else kvs ++ [(k, v)]

/-- Python `d.update(other)`: item-assign each binding of `other` in
order. -/
def dictUpdate (kvs : List (String × J)) (other : List (String × J)) :
    List (String × J) :=
  other.foldl (fun acc kv => dictSet acc kv.1 kv.2) kvs

/-- Field access on a `J` value that is known to be a dict; `none` on
non-dicts. -/
def J.get (j : J) (k : String) : Option J :=
  match j with
  | .obj kvs => dictFind kvs k
  | _ => none

/-! ## RateLimiter (`integrations.py` lines 15–43) -/

/-- State of the sliding-window rate limiter: configuration plus the
recorded call timestamps. -/
structure RateLimiter where
  max_calls : ℕ
  time_window : ℚ
  calls : List ℚ

/-- Fresh limiter as built by `RateLimiter.__init__`. -/
def RateLimiter.init (max_calls : ℕ) (time_window : ℚ) : RateLimiter :=
  { max_calls := max_calls, time_window := time_window, calls := [] }

/-- The list comprehension in `allow_call`: keep timestamps with
`now - call_time < time_window`. -/
def RateLimiter.pruned (rl : RateLimiter) (now : ℚ) : List ℚ :=
  rl.calls.filter (fun call_time => now - call_time < rl.time_window)

/-- The body of `RateLimiter.allow_call`, with `now = time.time()` made
explicit.  Returns the boolean result and the successor state. -/
def RateLimiter.allow_call (rl : RateLimiter) (now : ℚ) : Bool × RateLimiter :=
  let calls := rl.pruned now
  if calls.length < rl.max_calls then
    (true, { rl with calls := calls ++ [now] })
  else
    (false, { rl with calls := calls })

/-- The body of `RateLimiter.time_until_next_call` (state-read only). -/
def RateLimiter.time_until_next_call (rl : RateLimiter) (now : ℚ) : ℚ :=
  match rl.calls.min? with
  | none => 0
  | some oldest_call => max 0 (rl.time_window - (now - oldest_call))

/-! ## CostTracker (`integrations.py` lines 46–83) -/

/-- State of the per-day budget ledger.  Calendar dates are modelled as
day ordinals `ℕ`. -/
structure CostTracker where
  daily_limit : ℚ
  current_cost : ℚ
  request_count : ℕ
  last_reset : ℕ

/-- Fresh tracker as built by `CostTracker.__init__` on day `d`. -/
def CostTracker.init (daily_limit : ℚ) (d : ℕ) : CostTracker :=
  { daily_limit := daily_limit, current_cost := 0, request_count := 0,
    last_reset := d }

/-- The body of `CostTracker._reset_if_new_day`, with
`today = datetime.now().date()` made explicit. -/
def CostTracker.reset_if_new_day (ct : CostTracker) (today : ℕ) : CostTracker :=
  if today > ct.last_reset then
    { ct with current_cost := 0, request_count := 0, last_reset := today }
  else ct

/-- The body of `CostTracker.can_make_request` (the Python default for
`estimated_cost` is `0.1`).  Returns the boolean and the successor state
(the rollover check mutates the ledger). -/
def CostTracker.can_make_request (ct : CostTracker) (today : ℕ)
    (estimated_cost : ℚ) : Bool × CostTracker :=
  let ct' := ct.reset_if_new_day today
  (decide (ct'.current_cost + estimated_cost ≤ ct'.daily_limit), ct')

/-- The body of `CostTracker.record_request`. -/
def CostTracker.record_request (ct : CostTracker) (today : ℕ) (cost : ℚ) :
    CostTracker :=
  let ct' := ct.reset_if_new_day today
  { ct' with current_cost := ct'.current_cost + cost,
             request_count := ct'.request_count + 1 }

/-- The record returned by `CostTracker.get_usage_stats`. -/
structure UsageStats where
  current_cost : ℚ
  daily_limit : ℚ
  remaining_budget : ℚ
  request_count : ℕ
  cost_percentage : ℚ

/-- The body of `CostTracker.get_usage_stats` (it also runs the rollover
check first; the successor state is returned alongside). -/
def CostTracker.get_usage_stats (ct : CostTracker) (today : ℕ) :
    UsageStats × CostTracker :=
  let ct' := ct.reset_if_new_day today
  ({ current_cost := pyRound ct'.current_cost 4,
     daily_limit := ct'.daily_limit,
     remaining_budget := pyRound (ct'.daily_limit - ct'.current_cost) 4,
     request_count := ct'.request_count,
     cost_percentage := pyRound ((ct'.current_cost / ct'.daily_limit) * 100) 2 },
   ct')

/-! ## CircuitBreaker (`integrations.py` lines 86–119) -/

/-- The three breaker states of the string field `self.state`. -/
inductive CBState where
  | CLOSED : CBState
  | OPEN : CBState
  | HALF_OPEN : CBState
  deriving DecidableEq

/-- State of the circuit breaker. `last_failure_time` is `None` until
the first failure. -/
structure CircuitBreaker where
  failure_threshold : ℕ
  timeout : ℚ
  failure_count : ℕ
  last_failure_time : Option ℚ
  state : CBState

/-- Fresh breaker as built by `CircuitBreaker.__init__`. -/
def CircuitBreaker.init (failure_threshold : ℕ) (timeout : ℚ) : CircuitBreaker :=
  { failure_threshold := failure_threshold, timeout := timeout,
    failure_count := 0, last_failure_time := none, state := .CLOSED }

/-- The body of `CircuitBreaker.can_execute`, with `now = time.time()`
explicit.  In the `OPEN` state `last_failure_time` is always set (the
only transition into `OPEN` stamps it); `getD 0` stands for the
unreachable `None` arithmetic. -/
def CircuitBreaker.can_execute (cb : CircuitBreaker) (now : ℚ) :
    Bool × CircuitBreaker :=
  match cb.state with
  | .CLOSED => (true, cb)
  | .OPEN =>
    if now - (cb.last_failure_time.getD 0) > cb.timeout then
      (true, { cb with state := .HALF_OPEN })
    else
      (false, cb)
  | .HALF_OPEN => (true, cb)

/-- The body of `CircuitBreaker.record_success`. -/
def CircuitBreaker.record_success (cb : CircuitBreaker) : CircuitBreaker :=
  { cb with failure_count := 0, state := .CLOSED }

/-- The body of `CircuitBreaker.record_failure`, with `now` explicit.
The state is set to `OPEN` only when the incremented count reaches the
threshold; otherwise it is left unchanged. -/
def CircuitBreaker.record_failure (cb : CircuitBreaker) (now : ℚ) :
    CircuitBreaker :=
  let fc := cb.failure_count + 1
  { cb with failure_count := fc, last_failure_time := some now,
            state := if fc ≥ cb.failure_threshold then .OPEN else cb.state }

/-! ## User context and cache key (`integrations.py` lines 300–317) -/

/-- The `user_context` mapping of a roadmap request (per the data model:
`skills[]`, `learning_goals[]`, `location`, `availability_hours`,
`experience_years`).  `location` absent is modelled as `""`, the
default `user_context.get('location', '')` supplies. -/
structure UserContext where
  skills : List String
  learning_goals : List String
  location : String
  availability : String
  experience_years : ℤ

/-- The normalized `cache_data` dictionary built inside
`_generate_cache_key`. -/
structure CacheData where
  domain : String
  skill_level : String
  time_availability : String
  user_skills : List String
  learning_goals : List String
  location : String
  deriving DecidableEq

/-- The `cache_data` construction of `_generate_cache_key`: lower-case
and strip the scalar fields, sort the list fields. -/
def OpenAIIntegration.cache_data (domain skill_level time_availability : String)
    (ctx : UserContext) : CacheData :=
  { domain := pyStrip (pyLower domain),
    skill_level := pyStrip (pyLower skill_level),
    time_availability := pyStrip (pyLower time_availability),
    user_skills := pySorted ctx.skills,
    learning_goals := pySorted ctx.learning_goals,
    location := pyStrip (pyLower ctx.location) }

/-- JSON escaping of one character as `json.dumps` performs it (the
engine only ever serializes ASCII printable text here). -/
def jsonEscapeChar (c : Char) : String :=
  if c = '"' then "\\\""
  else if c = '\\' then "\\\\"
  else if c = '\n' then "\\n"
  else if c = '\r' then "\\r"
  else if c = '\t' then "\\t"
  else String.singleton c

/-- JSON string literal rendering. -/
def jsonStr (s : String) : String :=
  "\"" ++ s.data.foldl (fun acc c => acc ++ jsonEscapeChar c) "" ++ "\""

/-- JSON rendering of a list of strings with `json.dumps`'s default
separators. -/
def jsonStrList (l : List String) : String :=
  "[" ++ String.intercalate ", " (l.map jsonStr) ++ "]"

/-- The `cache_string = json.dumps(cache_data, sort_keys=True)` of
`_generate_cache_key`: keys serialized in alphabetical order with the
default `", "`/`": "` separators. -/
def OpenAIIntegration.cache_string (cd : CacheData) : String :=
  "\x7b\"domain\": " ++ jsonStr cd.domain ++
  ", \"learning_goals\": " ++ jsonStrList cd.learning_goals ++
  ", \"location\": " ++ jsonStr cd.location ++
  ", \"skill_level\": " ++ jsonStr cd.skill_level ++
  ", \"time_availability\": " ++ jsonStr cd.time_availability ++
  ", \"user_skills\": " ++ jsonStrList cd.user_skills ++ "\x7d"

/-- The cache key of `_generate_cache_key`.  The source returns
`"roadmap_" + md5(cache_string).hexdigest()`; the MD5 digest is a fixed
deterministic function of `cache_string`, so it is modelled by the
canonical string itself — every claim below uses only that equal
normalized requests produce equal keys, which transfers verbatim
through the digest. -/
def OpenAIIntegration.generate_cache_key (domain skill_level time_availability : String)
    (ctx : UserContext) : String :=
  "roadmap_" ++
    OpenAIIntegration.cache_string
      (OpenAIIntegration.cache_data domain skill_level time_availability ctx)

/-! ## A `json.loads` model (used by `_parse_and_validate_response`) -/

/-- JSON whitespace. -/
def jsonWs (c : Char) : Bool := c = ' ' ∨ c = '\t' ∨ c = '\n' ∨ c = '\r'

/-- Skip leading JSON whitespace. -/
def skipWs (cs : List Char) : List Char := cs.dropWhile jsonWs

/-- Value of a hex digit, if any. -/
def hexVal (c : Char) : Option ℕ :=
  if '0' ≤ c ∧ c ≤ '9' then some (c.toNat - 48)
  else if 'a' ≤ c ∧ c ≤ 'f' then some (c.toNat - 87)
  else if 'A' ≤ c ∧ c ≤ 'F' then some (c.toNat - 55)
  else none

/-- Parse a JSON string body (the opening quote already consumed),
handling the standard escapes.  Fuel-indexed so that everything reduces
in the kernel; callers supply fuel exceeding the input length. -/
def parseStrBody : ℕ → List Char → List Char → Option (String × List Char)
  | 0, _, _ => none
  | _ + 1, _, [] => none
  | fuel + 1, acc, c :: rest =>
    if c = '"' then some (⟨acc.reverse⟩, rest)
    else if c = '\\' then
      match rest with
      | [] => none
      | e :: rest' =>
        if e = '"' then parseStrBody fuel ('"' :: acc) rest'
        else if e = '\\' then parseStrBody fuel ('\\' :: acc) rest'
        else if e = '/' then parseStrBody fuel ('/' :: acc) rest'
        else if e = 'b' then parseStrBody fuel ('\x08' :: acc) rest'
        else if e = 'f' then parseStrBody fuel ('\x0c' :: acc) rest'
        else if e = 'n' then parseStrBody fuel ('\n' :: acc) rest'
        else if e = 'r' then parseStrBody fuel ('\r' :: acc) rest'
        else if e = 't' then parseStrBody fuel ('\t' :: acc) rest'
        else if e = 'u' then
          match rest' with
          | h1 :: h2 :: h3 :: h4 :: rest'' =>
            match hexVal h1, hexVal h2, hexVal h3, hexVal h4 with
            | some a, some b, some c', some d =>
              parseStrBody fuel
                (Char.ofNat (((a * 16 + b) * 16 + c') * 16 + d) :: acc) rest''
            | _, _, _, _ => none
          | _ => none
        else none
    else parseStrBody fuel (c :: acc) rest

/-- Numeric value of a digit run. -/
def digitsToNat (ds : List Char) : ℕ :=
  ds.foldl (fun acc c => acc * 10 + (c.toNat - 48)) 0

/-- Parse a JSON number (sign, integer part, optional fraction and
exponent) as an exact rational. -/
def parseNum (cs : List Char) : Option (ℚ × List Char) :=
  let (negSign, cs1) :=
    match cs with
    | '-' :: rest => (true, rest)
    | _ => (false, cs)
  let (ip, cs2) := cs1.span Char.isDigit
  if ip.isEmpty then none
  else
    let (fp, cs3) :=
      match cs2 with
      | '.' :: rest =>
        let (ds, r) := rest.span Char.isDigit
        (ds, if ds.isEmpty then cs2 else r)
      | _ => ([], cs2)
    let (ex, cs4) :=
      match cs3 with
      | 'e' :: rest | 'E' :: rest =>
        let (esign, r1) :=
          match rest with
          | '+' :: r => ((1 : ℤ), r)
          | '-' :: r => ((-1 : ℤ), r)
          | _ => ((1 : ℤ), rest)
        let (ds, r2) := r1.span Char.isDigit
        if ds.isEmpty then ((0 : ℤ), cs3) else (esign * digitsToNat ds, r2)
      | _ => ((0 : ℤ), cs3)
    let mantissa : ℚ := (digitsToNat ip : ℚ) + (digitsToNat fp : ℚ) / 10 ^ fp.length
    let value : ℚ := (if negSign then -mantissa else mantissa) * 10 ^ ex
    some (value, cs4)

mutual

/-- Parse one JSON value.  Fuel-indexed mutual recursion; callers supply
ample fuel.  The model agrees with `json.loads` on objects, arrays,
strings, keywords and numbers as the engine encounters them;
numeric-literal strictness corners (leading zeros) and surrogate-pair
`\u` escapes are not enforced. -/
def parseVal : ℕ → List Char → Option (J × List Char)
  | 0, _ => none
  | fuel + 1, cs =>
    match skipWs cs with
    | [] => none
    | c :: rest =>
      if c = '"' then
        match parseStrBody (rest.length + 1) [] rest with
        | some (s, r) => some (J.str s, r)
        | none => none
      else if c = '[' then
        match skipWs rest with
        | ']' :: r => some (J.arr [], r)
        | other => parseArrItems fuel other []
      else if c = '\x7b' then
        match skipWs rest with
        | '\x7d' :: r => some (J.obj [], r)
        | other => parseObjItems fuel other []
      else if c = 't' then
        match rest with
        | 'r' :: 'u' :: 'e' :: r => some (J.bool true, r)
        | _ => none
      else if c = 'f' then
        match rest with
        | 'a' :: 'l' :: 's' :: 'e' :: r => some (J.bool false, r)
        | _ => none
      else if c = 'n' then
        match rest with
        | 'u' :: 'l' :: 'l' :: r => some (J.null, r)
        | _ => none
      else
        match parseNum (c :: rest) with
        | some (q, r) => some (J.num q, r)
        | none => none

/-- Parse the items of a non-empty JSON array. -/
def parseArrItems : ℕ → List Char → List J → Option (J × List Char)
  | 0, _, _ => none
  | fuel + 1, cs, acc =>
    match parseVal fuel cs with
    | none => none
    | some (v, rest) =>
      match skipWs rest with
      | ',' :: r => parseArrItems fuel r (v :: acc)
      | ']' :: r => some (J.arr (v :: acc).reverse, r)
      | _ => none

/-- Parse the members of a non-empty JSON object.  Repeated keys follow
Python's `dict` semantics: the first occurrence fixes the position, the
last occurrence fixes the value (`dictSet`). -/
def parseObjItems : ℕ → List Char → List (String × J) → Option (J × List Char)
  | 0, _, _ => none
  | fuel + 1, cs, acc =>
    match skipWs cs with
    | '"' :: rest =>
      match parseStrBody (rest.length + 1) [] rest with
      | none => none
      | some (k, r1) =>
        match skipWs r1 with
        | ':' :: r2 =>
          match parseVal fuel r2 with
          | none => none
          | some (v, r3) =>
            match skipWs r3 with
            | ',' :: r4 => parseObjItems fuel r4 (dictSet acc k v)
            | '\x7d' :: r4 => some (J.obj (dictSet acc k v), r4)
            | _ => none
        | _ => none
    | _ => none

end

/-- The model of `json.loads`: parse one value and require only
whitespace to remain. -/
def json_loads (s : String) : Option J :=
  match parseVal (2 * s.data.length + 8) s.data with
  | some (v, rest) => if (skipWs rest).isEmpty then some v else none
  | none => none

/-! ## The candidate-extraction regex of `_parse_and_validate_response`

The source scans the raw response with
`re.findall(r'\x7b[^\x7b\x7d]*(?:\x7b[^\x7b\x7d]*\x7d[^\x7b\x7d]*)*\x7d', text)`:
non-overlapping, leftmost, greedy matches of a brace block whose nesting
depth is at most one.  For this pattern the backtracking regex engine is
equivalent to the deterministic scanner below. -/

/-- Characters allowed inside a brace block by the `[^...]` classes of
the pattern: anything except the two braces. -/
def nonBrace (c : Char) : Bool := c ≠ '\x7b' ∧ c ≠ '\x7d'

/-- Match the tail `(?:\x7b[^..]*\x7d[^..]*)*\x7d` of the pattern:
either close immediately, or consume one inner brace group plus trailing
non-brace text and continue.  Returns the consumed characters and the
rest. -/
def braceGroups : ℕ → List Char → Option (List Char × List Char)
  | 0, _ => none
  | fuel + 1, cs =>
    match cs with
    | '\x7d' :: rest => some (['\x7d'], rest)
    | '\x7b' :: rest =>
      let inner := rest.takeWhile nonBrace
      let r2 := rest.dropWhile nonBrace
      match r2 with
      | '\x7d' :: r3 =>
        let after := r3.takeWhile nonBrace
        let r4 := r3.dropWhile nonBrace
        match braceGroups fuel r4 with
        | some (tail, rest') =>
          some ('\x7b' :: inner ++ '\x7d' :: after ++ tail, rest')
        | none => none
      | _ => none
    | _ => none

/-- Attempt the whole pattern at the current position. -/
def regexMatchAt (cs : List Char) : Option (List Char × List Char) :=
  match cs with
  | '\x7b' :: rest =>
    let lead := rest.takeWhile nonBrace
    let r1 := rest.dropWhile nonBrace
    match braceGroups (r1.length + 1) r1 with
    | some (tail, rest') => some ('\x7b' :: lead ++ tail, rest')
    | none => none
  | _ => none

/-- The `re.findall` loop: try the pattern at every position from the
left, skipping past each match. -/
def findJsonCandidates : ℕ → List Char → List String
  | 0, _ => []
  | _ + 1, [] => []
  | fuel + 1, c :: cs =>
    match regexMatchAt (c :: cs) with
    | some (m, rest) => String.mk m :: findJsonCandidates fuel rest
    | none => findJsonCandidates fuel cs

/-! ## `_validate_roadmap_structure` (`integrations.py` lines 506–526) -/

/-- The body of `_validate_roadmap_structure`: the decoded candidate is
valid iff it has the required `domain` and `modules` fields, `modules`
is a non-empty list, and every module is a dict with a `title` or `name`
key. -/
def OpenAIIntegration.validate_roadmap_structure (data : List (String × J)) : Bool :=
  let has_required := dictHas data "domain" && dictHas data "modules"
  if !has_required then false
  else
    match dictGetD data "modules" (J.arr []) with
    | J.arr modules =>
      if modules.isEmpty then false
      else
        modules.all fun m =>
          match m with
          | J.obj mkvs => dictHas mkvs "title" || dictHas mkvs "name"
          | _ => false
    | _ => false

/-! ## `_parse_and_validate_response` (`integrations.py` lines 457–504) -/

/-- Post-processing of one resource entry: `setdefault` of
`title`/`platform`/`url` applied to dict entries, everything else left
alone (`isinstance(resource, dict)` guard). -/
def resourceDefaults (r : J) : J :=
  match r with
  | J.obj rkvs =>
    J.obj (dictSetdefault
            (dictSetdefault
              (dictSetdefault rkvs "title" (J.str "Resource"))
              "platform" (J.str "Web"))
            "url" (J.str "https://example.com"))
  | other => other

/-- Post-processing of one validated module (the `for i, module in
enumerate(modules)` body).  Validation guarantees each module is a dict.
Iterating `module.get('resources', [])` raises `TypeError` — caught by
the outer handler, which returns `None` — when the stored value is a
number/bool/`None`; iterating a string or a dict touches no dict
element, and an absent key iterates the default `[]`. -/
def moduleDefaults (i : ℕ) (m : J) : Option J :=
  match m with
  | J.obj mkvs =>
    let idx := i + 1
    let mkvs1 := dictSetdefault mkvs "name"
      (dictGetD mkvs "title" (J.str s!"Module {idx}"))
    let mkvs2 := dictSetdefault mkvs1 "completed" (J.bool false)
    match dictFind mkvs2 "resources" with
    | none => some (J.obj mkvs2)
    | some (J.arr rs) =>
      some (J.obj (dictSet mkvs2 "resources" (J.arr (rs.map resourceDefaults))))
    | some (J.str _) => some (J.obj mkvs2)
    | some (J.obj _) => some (J.obj mkvs2)
    | some _ => none
  | other => some other

/-- Map an option-valued function over an indexed list, failing if any
element fails (the module post-processing loop under the outer
`try`/`except`). -/
def mapIdxOption (f : ℕ → J → Option J) : ℕ → List J → Option (List J)
  | _, [] => some []
  | i, x :: xs =>
    match f i x with
    | none => none
    | some y =>
      match mapIdxOption f (i + 1) xs with
      | none => none
      | some ys => some (y :: ys)

/-- The acceptance step of `_parse_and_validate_response` applied to one
decoded-and-validated candidate dict: add the compatibility defaults,
set `progress`, and re-assign `modules`. -/
def acceptCandidate (data : List (String × J)) : Option J :=
  let modules :=
    match dictGetD data "modules" (J.arr []) with
    | J.arr ms => ms
    | _ => []
  match mapIdxOption moduleDefaults 0 modules with
  | none => none
  | some modules' =>
    let data1 := dictSetdefault data "progress" (J.num 0)
    let data2 := dictSet data1 "modules" (J.arr modules')
    some (J.obj data2)

/-! `_create_fallback_structure` (`integrations.py` lines 528–574) and
its two `re.findall` patterns.  The `\s*`-backtracking corner of the
patterns (which can only ever produce a single-whitespace capture,
immediately discarded by the `len(section) > 10` guard) is not
modelled; on every other input the deterministic scanners below agree
with the regex engine. -/

/-- Attempt `\d+\.\s*([^0-9\n]+)` at the current position, returning the
captured group and the rest. -/
def numberedMatchAt (cs : List Char) : Option (List Char × List Char) :=
  let ds := cs.takeWhile Char.isDigit
  let r1 := cs.dropWhile Char.isDigit
  if ds.isEmpty then none
  else
    match r1 with
    | '.' :: r2 =>
      let r3 := r2.dropWhile isPySpace
      let cap := r3.takeWhile (fun c => !c.isDigit && c ≠ '\n')
      let r4 := r3.dropWhile (fun c => !c.isDigit && c ≠ '\n')
      if cap.isEmpty then none else some (cap, r4)
    | _ => none

/-- The `re.findall(r'\d+\.\s*([^0-9\n]+)', text)` loop. -/
def findNumberedSections : ℕ → List Char → List String
  | 0, _ => []
  | _ + 1, [] => []
  | fuel + 1, c :: cs =>
    match numberedMatchAt (c :: cs) with
    | some (cap, rest) => String.mk cap :: findNumberedSections fuel rest
    | none => findNumberedSections fuel cs

/-- Attempt `[-•]\s*([^\n]+)` at the current position. -/
def bulletMatchAt (cs : List Char) : Option (List Char × List Char) :=
  match cs with
  | c :: rest =>
    if c = '-' ∨ c = '•' then
      let r1 := rest.dropWhile isPySpace
      let cap := r1.takeWhile (fun ch => ch ≠ '\n')
      let r2 := r1.dropWhile (fun ch => ch ≠ '\n')
      if cap.isEmpty then none else some (cap, r2)
    else none
  | [] => none

/-- The `re.findall(r'[-•]\s*([^\n]+)', text)` loop. -/
def findBulletSections : ℕ → List Char → List String
  | 0, _ => []
  | _ + 1, [] => []
  | fuel + 1, c :: cs =>
    match bulletMatchAt (c :: cs) with
    | some (cap, rest) => String.mk cap :: findBulletSections fuel rest
    | none => findBulletSections fuel cs

/-- Python `s[:n]` on the model. -/
def pyTake (s : String) (n : ℕ) : String := ⟨s.data.take n⟩

/-- One module stub of `_create_fallback_structure`, built from the
`i`-th usable section text. -/
def sectionModule (i : ℕ) (section' : String) : J :=
  let idx := i + 1
  let s50 := pyTake section' 50
  let s100 := pyTake section' 100
  let s30 := pyTake section' 30
  J.obj
    [("name", J.str s!"Module {idx}: {s50}..."),
     ("description", J.str s!"Learn about {s100}..."),
     ("objectives", J.arr
       [J.str s!"Understand {s30} concepts",
        J.str s!"Apply {s30} in practice",
        J.str s!"Master {s30} fundamentals"]),
     ("estimated_time", J.num (15 + i * 5)),
     ("resources", J.arr
       [J.obj
         [("title", J.str s!"{s30} Tutorial"),
          ("platform", J.str "Web"),
          ("url", J.str "https://example.com")]]),
     ("completed", J.bool false)]

/-- The module-collection loop of `_create_fallback_structure`:
enumerate the first 7 sections, strip each, keep those longer than 10
characters. -/
def sectionModules (sections : List String) : List J :=
  ((sections.take 7).enum.filterMap fun p =>
    let section' := pyStrip p.2
    if section'.data.length > 10 then some (sectionModule p.1 section') else none)

/-- One default module of `_get_default_modules` (`integrations.py`
lines 576–607). -/
def defaultModule (module : String) : J :=
  let lowered := pyLower module
  J.obj
    [("name", J.str module),
     ("description", J.str s!"Comprehensive study of {lowered}"),
     ("objectives", J.arr
       [J.str s!"Understand {module} concepts",
        J.str s!"Apply {module} in practical scenarios",
        J.str s!"Master {module} implementation"]),
     ("estimated_time", J.num 20),
     ("resources", J.arr
       [J.obj
         [("title", J.str s!"{module} Guide"),
          ("platform", J.str "Web"),
          ("url", J.str "https://example.com")]]),
     ("completed", J.bool false)]

/-- The body of `_get_default_modules`. -/
def OpenAIIntegration.get_default_modules (domain skill_level : String) : List J :=
  let _ := skill_level
  [defaultModule s!"{domain} Fundamentals",
   defaultModule s!"{domain} Core Concepts",
   defaultModule s!"{domain} Practical Applications",
   defaultModule s!"{domain} Advanced Topics",
   defaultModule s!"{domain} Project Development",
   defaultModule s!"{domain} Best Practices"]

/-- The body of `_create_fallback_structure`. -/
def OpenAIIntegration.create_fallback_structure (response_text domain skill_level
    time_availability : String) : J :=
  let cs := response_text.data
  let sections :=
    let numbered := findNumberedSections (cs.length + 1) cs
    if numbered.isEmpty then findBulletSections (cs.length + 1) cs else numbered
  let modules := sectionModules sections
  let modules :=
    if modules.isEmpty then
      OpenAIIntegration.get_default_modules domain skill_level
    else modules
  J.obj
    [("domain", J.str domain),
     ("skill_level", J.str skill_level),
     ("time_availability", J.str time_availability),
     ("estimated_duration_weeks", J.num 12),
     ("progress", J.num 0),
     ("modules", J.arr modules),
     ("generated_by", J.str "openai_fallback")]

/-- The candidate loop of `_parse_and_validate_response`: try
`json.loads` on each regex candidate in order (a `JSONDecodeError`
continues), returning the first decoded dict the validator accepts. -/
def firstValidCandidate : List String → Option (List (String × J))
  | [] => none
  | c :: rest =>
    match json_loads c with
    | some (J.obj kvs) =>
      if OpenAIIntegration.validate_roadmap_structure kvs then some kvs
      else firstValidCandidate rest
    | _ => firstValidCandidate rest

/-- The body of `_parse_and_validate_response`: scan for brace-balanced
JSON candidates, decode each, accept the first that validates (with the
compatibility post-processing), otherwise build the structured fallback
from the raw text.  `none` models the outer `except` returning `None`
(reachable only through the `TypeError` noted at `moduleDefaults`). -/
def OpenAIIntegration.parse_and_validate_response (response_text domain skill_level
    time_availability : String) : Option J :=
  let cs := response_text.data
  let candidates := findJsonCandidates (cs.length + 1) cs
  match firstValidCandidate candidates with
  | some kvs => acceptCandidate kvs
  | none =>
    some (OpenAIIntegration.create_fallback_structure response_text domain
      skill_level time_availability)

/-! ## `_generate_enhanced_mock_roadmap` (`integrations.py` lines 609–716) -/

/-- One entry of the static per-domain module catalog. -/
structure MockModuleData where
  title : String
  hours : ℕ
  difficulty : String
  deriving DecidableEq

/-- The `domain_modules` literal: the three known domain catalogs. -/
def domain_modules (key : String) : Option (List MockModuleData) :=
  if key = "python" then some
    [⟨"Python Programming Fundamentals", 25, "beginner"⟩,
     ⟨"Data Structures and Algorithms", 30, "intermediate"⟩,
     ⟨"Object-Oriented Programming", 20, "intermediate"⟩,
     ⟨"Web Development with Django/Flask", 35, "intermediate"⟩,
     ⟨"Data Science and Machine Learning", 40, "advanced"⟩,
     ⟨"Testing and Debugging", 15, "intermediate"⟩,
     ⟨"Deployment and DevOps", 20, "advanced"⟩]
  else if key = "javascript" then some
    [⟨"JavaScript Fundamentals", 20, "beginner"⟩,
     ⟨"DOM Manipulation and Events", 15, "beginner"⟩,
     ⟨"Asynchronous JavaScript", 25, "intermediate"⟩,
     ⟨"Modern JavaScript (ES6+)", 20, "intermediate"⟩,
     ⟨"Frontend Framework (React/Vue)", 30, "intermediate"⟩,
     ⟨"Node.js and Backend Development", 25, "advanced"⟩,
     ⟨"Testing and Deployment", 15, "intermediate"⟩]
  else if key = "web_development" then some
    [⟨"HTML & CSS Fundamentals", 20, "beginner"⟩,
     ⟨"Responsive Design and Flexbox/Grid", 15, "beginner"⟩,
     ⟨"JavaScript Basics", 25, "beginner"⟩,
     ⟨"Frontend Framework", 30, "intermediate"⟩,
     ⟨"Backend API Development", 25, "intermediate"⟩,
     ⟨"Database Design and Management", 20, "intermediate"⟩,
     ⟨"Deployment and DevOps", 15, "advanced"⟩]
  else none

/-- The default argument of the `domain_modules.get(...)` call: the
synthesized 5-module generic catalog for an unknown domain. -/
def genericCatalog (domain : String) : List MockModuleData :=
  [⟨s!"{domain} Fundamentals", 20, "beginner"⟩,
   ⟨s!"{domain} Core Concepts", 25, "intermediate"⟩,
   ⟨s!"{domain} Advanced Applications", 30, "advanced"⟩,
   ⟨s!"{domain} Professional Projects", 25, "advanced"⟩,
   ⟨s!"{domain} Best Practices", 15, "intermediate"⟩]

/-- The catalog lookup `domain_modules.get(domain.lower().replace(' ', '_'), [...])`. -/
def catalogFor (domain : String) : List MockModuleData :=
  (domain_modules (pyReplaceChar (pyLower domain) ' ' '_')).getD (genericCatalog domain)

/-- The skill-level filter of `_generate_enhanced_mock_roadmap`:
`beginner` keeps beginner+intermediate entries, `intermediate` keeps
intermediate only, anything else keeps intermediate+advanced. -/
def filterBySkillLevel (skill_level : String) (ms : List MockModuleData) :
    List MockModuleData :=
  if skill_level = "beginner" then
    ms.filter fun m => m.difficulty = "beginner" ∨ m.difficulty = "intermediate"
  else if skill_level = "intermediate" then
    ms.filter fun m => m.difficulty = "intermediate"
  else
    ms.filter fun m => m.difficulty = "intermediate" ∨ m.difficulty = "advanced"

/-- The `modules_data` list the mock generator works from. -/
def OpenAIIntegration.modules_data (domain skill_level : String) : List MockModuleData :=
  filterBySkillLevel skill_level (catalogFor domain)

/-- The `weeks_per_hour` constant chosen from `time_availability`
(`0.2`, `0.05` and `0.3` as exact rationals). -/
def weeksPerHour (time_availability : String) : ℚ :=
  if time_availability = "part-time" then 1/5
  else if time_availability = "full-time" then 1/20
  else 3/10

/-- The body of `_generate_milestones`: checkpoints at 25/50/75/100% of
the duration (`int` truncation of the exact products `w*0.25`, `w*0.5`
and `w*0.75` is floor division). -/
def OpenAIIntegration.generate_milestones (total_weeks : ℕ) : List J :=
  let names := ["Foundation Complete", "Core Skills Mastered",
                "Advanced Proficiency", "Learning Goal Achieved"]
  let weeks := [total_weeks / 4, total_weeks / 2, 3 * total_weeks / 4, total_weeks]
  (weeks.zip names).map fun p =>
    let lowered := pyLower p.2
    J.obj
      [("week", J.num p.1),
       ("achievement", J.str p.2),
       ("description",
        J.str s!"Reach this milestone to validate your progress in {lowered}")]

/-- The body of `_generate_resources`. -/
def OpenAIIntegration.generate_resources (module_title domain : String) : List J :=
  let slug := pyReplaceChar (pyLower domain) ' ' '-'
  [J.obj
    [("title", J.str s!"{module_title} - Official Documentation"),
     ("type", J.str "documentation"),
     ("platform", J.str "Official Docs"),
     ("url", J.str s!"https://docs.example.com/{slug}"),
     ("free", J.bool true),
     ("estimated_time", J.str "2-3 hours")],
   J.obj
    [("title", J.str s!"{module_title} - Interactive Tutorial"),
     ("type", J.str "tutorial"),
     ("platform", J.str "Interactive Learning"),
     ("url", J.str "https://example.com/interactive-tutorial"),
     ("free", J.bool true),
     ("estimated_time", J.str "4-5 hours")],
   J.obj
    [("title", J.str s!"{module_title} - Video Course"),
     ("type", J.str "video"),
     ("platform", J.str "Educational Platform"),
     ("url", J.str "https://youtube.com/watch?v=example"),
     ("free", J.bool true),
     ("estimated_time", J.str "6-8 hours")],
   J.obj
    [("title", J.str s!"{module_title} - Hands-on Project"),
     ("type", J.str "project"),
     ("platform", J.str "Practice Platform"),
     ("url", J.str "https://example.com/project"),
     ("free", J.bool true),
     ("estimated_time", J.str "8-10 hours")]]

/-- The body of `_generate_exercises`. -/
def OpenAIIntegration.generate_exercises (module_title : String) : List J :=
  [J.obj
    [("title", J.str s!"Basic {module_title} Exercise"),
     ("description",
      J.str s!"Practice fundamental {module_title} concepts with guided examples"),
     ("estimated_time", J.str "1-2 hours")],
   J.obj
    [("title", J.str s!"Intermediate {module_title} Challenge"),
     ("description",
      J.str s!"Solve more complex {module_title} problems independently"),
     ("estimated_time", J.str "2-3 hours")],
   J.obj
    [("title", J.str s!"Advanced {module_title} Project"),
     ("description",
      J.str s!"Apply {module_title} knowledge in a comprehensive project"),
     ("estimated_time", J.str "4-6 hours")]]

/-- One enhanced module dict built in the mock generator's loop. -/
def mockModule (domain : String) (i : ℕ) (md : MockModuleData) : J :=
  let t := md.title
  J.obj
    [("id", J.num (i + 1)),
     ("name", J.str t),
     ("description",
      J.str s!"Comprehensive study of {t} with hands-on projects and real-world applications"),
     ("objectives", J.arr
       [J.str s!"Master {t} fundamentals and core concepts",
        J.str s!"Apply {t} in practical, real-world scenarios",
        J.str s!"Develop expertise in {t} best practices",
        J.str s!"Build portfolio projects demonstrating {t} proficiency",
        J.str s!"Prepare for professional {t} development"]),
     ("estimated_hours", J.num md.hours),
     ("difficulty", J.str md.difficulty),
     ("completed", J.bool false),
     ("resources", J.arr (OpenAIIntegration.generate_resources t domain)),
     ("exercises", J.arr (OpenAIIntegration.generate_exercises t)),
     ("project", J.obj
       [("title", J.str s!"{t} Capstone Project"),
        ("description",
         J.str s!"Build a comprehensive {t} application showcasing all learned concepts"),
        ("complexity", J.str md.difficulty)]),
     ("assessment",
      J.str "Demonstrate proficiency through practical implementation and code review")]

/-- The `estimated_weeks` computation:
`max(4, int(total_hours * weeks_per_hour))` on the exact rationals. -/
def OpenAIIntegration.estimated_weeks (total_hours : ℕ) (time_availability : String) : ℕ :=
  max 4 (⌊(total_hours : ℚ) * weeksPerHour time_availability⌋).toNat

/-- The body of `_generate_enhanced_mock_roadmap`, with
`now = datetime.now()` explicit (it feeds only `generated_at`). -/
def OpenAIIntegration.generate_enhanced_mock_roadmap (domain skill_level
    time_availability : String) (now : ℚ) : J :=
  let modulesData := OpenAIIntegration.modules_data domain skill_level
  let total_hours := (modulesData.map MockModuleData.hours).sum
  let weeks := OpenAIIntegration.estimated_weeks total_hours time_availability
  J.obj
    [("domain", J.str domain),
     ("skill_level", J.str skill_level),
     ("time_availability", J.str time_availability),
     ("estimated_duration_weeks", J.num weeks),
     ("total_estimated_hours", J.num total_hours),
     ("progress", J.num 0),
     ("modules", J.arr (modulesData.enum.map fun p => mockModule domain p.1 p.2)),
     ("milestones", J.arr (OpenAIIntegration.generate_milestones weeks)),
     ("generated_by", J.str "enhanced_mock_generator"),
     ("generated_at", J.num now),
     ("cost", J.num 0),
     ("response_time", J.num 0)]

/-! ## `_estimate_cost` (`integrations.py` lines 794–804) -/

/-- The body of `_estimate_cost`: a 75%/25% input/output token split
(`int` truncation of the exact products is floor division) at the fixed
prices, rounded to 6 decimals. -/
def OpenAIIntegration.estimate_cost (tokens_used : ℕ) : ℚ :=
  let input_tokens : ℕ := 3 * tokens_used / 4
  let output_tokens : ℕ := tokens_used / 4
  let input_cost : ℚ := ((input_tokens : ℚ) / 1000) * (15 / 10000)
  let output_cost : ℚ := ((output_tokens : ℚ) / 1000) * (2 / 1000)
  pyRound (input_cost + output_cost) 6

/-! ## The orchestrator `generate_roadmap` (`integrations.py` lines 148–298) -/

/-- One behaviour of the completion-service client on one attempt:
either a response (its message content and `usage.total_tokens`, the
latter `none` when `response.usage` is missing), or one of the four
distinguishable error categories
(`openai.RateLimitError` / `openai.APITimeoutError` / `openai.APIError`
/ any other exception). -/
inductive ClientResult where
  | success (content : String) (usage : Option ℕ) : ClientResult
  | rateLimitError : ClientResult
  | timeoutError : ClientResult
  | apiError : ClientResult
  | otherError : ClientResult
  deriving DecidableEq

/-- The ambient environment of one `generate_roadmap` call: the clock
instant and calendar day of the call, whether `self.client` is
available, the behaviour of the client on each attempt, and the
`OPENAI_MAX_RETRIES` setting (default 3). -/
structure CallEnv where
  now : ℚ
  today : ℕ
  client_available : Bool
  clientBehavior : ℕ → ClientResult
  max_retries : ℕ

/-- The mutable state the orchestrator touches: the three shared
resilience components plus the Django response cache. -/
structure IntegrationState where
  rate_limiter : RateLimiter
  cost_tracker : CostTracker
  circuit_breaker : CircuitBreaker
  cacheStore : List (String × J)

/-- The metadata dict merged into a parsed AI roadmap on success
(`roadmap_data.update(...)`), with `start_time = time.time()` equal to
the call instant under the frozen-clock convention, so
`response_time = round(now - now, 2)`. -/
def successMetadata (env : CallEnv) (domain skill_level time_availability : String)
    (estimated_cost : ℚ) : List (String × J) :=
  [("domain", J.str domain),
   ("skill_level", J.str skill_level),
   ("time_availability", J.str time_availability),
   ("generated_by", J.str "openai"),
   ("generated_at", J.num env.now),
   ("cost", J.num estimated_cost),
   ("response_time", J.num (pyRound (env.now - env.now) 2))]

/-- The retry loop of `generate_roadmap` (`for attempt in
range(max_retries + 1)`).  `remaining = max_retries - attempt` is the
structural fuel: `remaining = 0` exactly when `attempt == max_retries`,
where every handler returns the enhanced mock roadmap.  Backoff sleeps
have no modelled effect, and the pure `_build_enhanced_prompt` /
`_get_system_prompt` string construction is elided: the attempt outcome
comes from the client oracle, which already ranges over every possible
response to every possible prompt.  On `RateLimitError`/`APITimeoutError` the
breaker records a failure only when retries are exhausted; on
`APIError` and generic exceptions it records one on every attempt, as
in the source. -/
def attemptLoop (env : CallEnv) (cache_key domain skill_level time_availability : String)
    (use_cache : Bool) : ℕ → ℕ → IntegrationState → J × IntegrationState
  | remaining, attempt, st =>
    let mock := OpenAIIntegration.generate_enhanced_mock_roadmap domain skill_level
      time_availability env.now
    match env.clientBehavior attempt with
    | .success content usage =>
      let st1 := { st with circuit_breaker := st.circuit_breaker.record_success }
      let parsed := OpenAIIntegration.parse_and_validate_response content domain
        skill_level time_availability
      let ok :=
        match parsed with
        | some roadmap_data => roadmap_data.truthy
        | none => false
      match ok, parsed with
      | true, some roadmap_data =>
        let estimated_cost := OpenAIIntegration.estimate_cost (usage.getD 1000)
        let st2 := { st1 with
          cost_tracker := st1.cost_tracker.record_request env.today estimated_cost }
        let data' :=
          match roadmap_data with
          | J.obj kvs =>
            J.obj (dictUpdate kvs
              (successMetadata env domain skill_level time_availability estimated_cost))
          | other => other
        let st3 :=
          if use_cache then
            { st2 with cacheStore := dictSet st2.cacheStore cache_key data' }
          else st2
        (data', st3)
      | _, _ =>
        -- `raise Exception("Failed to parse response")`, caught by the
        -- generic handler: record a failure, return the mock at the last
        -- attempt, otherwise retry.
        let st2 := { st1 with
          circuit_breaker := st1.circuit_breaker.record_failure env.now }
        match remaining with
        | 0 => (mock, st2)
        | r + 1 => attemptLoop env cache_key domain skill_level time_availability
            use_cache r (attempt + 1) st2
    | .rateLimitError =>
      match remaining with
      | 0 =>
        ((mock : J), { st with
          circuit_breaker := st.circuit_breaker.record_failure env.now })
      | r + 1 => attemptLoop env cache_key domain skill_level time_availability
          use_cache r (attempt + 1) st
    | .timeoutError =>
      match remaining with
      | 0 =>
        ((mock : J), { st with
          circuit_breaker := st.circuit_breaker.record_failure env.now })
      | r + 1 => attemptLoop env cache_key domain skill_level time_availability
          use_cache r (attempt + 1) st
    | .apiError =>
      let st1 := { st with
        circuit_breaker := st.circuit_breaker.record_failure env.now }
      match remaining with
      | 0 => ((mock : J), st1)
      | r + 1 => attemptLoop env cache_key domain skill_level time_availability
          use_cache r (attempt + 1) st1
    | .otherError =>
      let st1 := { st with
        circuit_breaker := st.circuit_breaker.record_failure env.now }
      match remaining with
      | 0 => ((mock : J), st1)
      | r + 1 => attemptLoop env cache_key domain skill_level time_availability
          use_cache r (attempt + 1) st1

/-- The guarded path of `generate_roadmap` after the cache check: rate
limiter (a denial only sleeps, it never rejects), cost ceiling, circuit
breaker, client availability, then the retry loop. -/
def generate_roadmap_uncached (env : CallEnv) (st : IntegrationState)
    (cache_key domain skill_level time_availability : String) (use_cache : Bool) :
    J × IntegrationState :=
  let mock := OpenAIIntegration.generate_enhanced_mock_roadmap domain skill_level
    time_availability env.now
  let rlStep := st.rate_limiter.allow_call env.now
  let st1 := { st with rate_limiter := rlStep.2 }
  let ctStep := st1.cost_tracker.can_make_request env.today (1/10)
  let st2 := { st1 with cost_tracker := ctStep.2 }
  if !ctStep.1 then (mock, st2)
  else
    let cbStep := st2.circuit_breaker.can_execute env.now
    let st3 := { st2 with circuit_breaker := cbStep.2 }
    if !cbStep.1 then (mock, st3)
    else if !env.client_available then (mock, st3)
    else attemptLoop env cache_key domain skill_level time_availability use_cache
      env.max_retries 0 st3

/-- The body of `OpenAIIntegration.generate_roadmap`: compute the cache
key, serve a truthy cached entry unchanged when `use_cache` is set,
otherwise run the guarded generation path.  The function is total: every
failure mode of the client terminates in a returned roadmap value. -/
def OpenAIIntegration.generate_roadmap (env : CallEnv) (st : IntegrationState)
    (domain skill_level time_availability : String) (user_context : UserContext)
    (use_cache : Bool) : J × IntegrationState :=
  let cache_key := OpenAIIntegration.generate_cache_key domain skill_level
    time_availability user_context
  let cached := if use_cache then dictFind st.cacheStore cache_key else none
  match cached with
  | some v =>
    if v.truthy then (v, st)
    else generate_roadmap_uncached env st cache_key domain skill_level
      time_availability use_cache
  | none => generate_roadmap_uncached env st cache_key domain skill_level
      time_availability use_cache

/-- The breaker state reached by the three consecutive `record_failure`
calls of the C2 script, from a fresh breaker with
`failure_threshold = 3`. -/
def CircuitBreaker.after_three_failures (timeout t1 t2 t3 : ℚ) : CircuitBreaker :=
  (((CircuitBreaker.init 3 timeout).record_failure t1).record_failure
    t2).record_failure t3

/-! ## Theorems -/

theorem charsLe_total (a b : List Char) : charsLe a b = true ∨ charsLe b a = true := by
  induction a generalizing b with
  | nil => left; rfl
  | cons x xs ih =>
    cases b with
    | nil => right; rfl
    | cons y ys =>
      by_cases h1 : x.toNat < y.toNat
      · left; simp [charsLe, h1]
      · by_cases h2 : y.toNat < x.toNat
        · right; simp [charsLe, h2]
        · rcases ih ys with h | h
          · left; simp [charsLe, h1, h2, h]
          · right; simp [charsLe, h1, h2, h]

theorem charsLe_antisymm (a b : List Char) (hab : charsLe a b = true)
    (hba : charsLe b a = true) : a = b := by
  induction a generalizing b with
  | nil =>
    cases b with
    | nil => rfl
    | cons y ys => simp [charsLe] at hba
  | cons x xs ih =>
    cases b with
    | nil => simp [charsLe] at hab
    | cons y ys =>
      by_cases h1 : x.toNat < y.toNat
      · have h2 : ¬ y.toNat < x.toNat := by omega
        rw [charsLe, if_neg h2, if_pos h1] at hba
        exact absurd hba (by simp)
      · by_cases h2 : y.toNat < x.toNat
        · rw [charsLe, if_neg h1, if_pos h2] at hab
          exact absurd hab (by simp)
        · have hxy : x.toNat = y.toNat := by omega
          have hx : x = y := by
            have := congrArg Char.ofNat hxy
            rwa [Char.ofNat_toNat, Char.ofNat_toNat] at this
          subst hx
          rw [charsLe, if_neg h1, if_neg h2] at hab
          rw [charsLe, if_neg h1, if_neg h2] at hba
          rw [ih ys hab hba]

theorem charsLe_trans (a b c : List Char) (hab : charsLe a b = true)
    (hbc : charsLe b c = true) : charsLe a c = true := by
  induction a generalizing b c with
  | nil => rfl
  | cons x xs ih =>
    cases b with
    | nil => simp [charsLe] at hab
    | cons y ys =>
      cases c with
      | nil => simp [charsLe] at hbc
      | cons z zs =>
        rw [charsLe] at hab hbc ⊢
        by_cases h1 : x.toNat < y.toNat <;> by_cases h2 : y.toNat < z.toNat
        · rw [if_pos (by omega : x.toNat < z.toNat)]
        · by_cases h2' : z.toNat < y.toNat
          · rw [if_neg h2, if_pos h2'] at hbc
            exact absurd hbc (by simp)
          · rw [if_pos (by omega : x.toNat < z.toNat)]
        · by_cases h1' : y.toNat < x.toNat
          · rw [if_neg h1, if_pos h1'] at hab
            exact absurd hab (by simp)
          · rw [if_pos (by omega : x.toNat < z.toNat)]
        · by_cases h1' : y.toNat < x.toNat
          · rw [if_neg h1, if_pos h1'] at hab
            exact absurd hab (by simp)
          · by_cases h2' : z.toNat < y.toNat
            · rw [if_neg h2, if_pos h2'] at hbc
              exact absurd hbc (by simp)
            · rw [if_neg h1, if_neg h1'] at hab
              rw [if_neg h2, if_neg h2'] at hbc
              rw [if_neg (by omega), if_neg (by omega)]
              exact ih ys zs hab hbc

/-- Sorting is invariant under permutation of the input: `pyStrLe` is a
total order, so the sorted permutation is unique. -/
theorem pySorted_perm_eq (l₁ l₂ : List String) (h : l₁.Perm l₂) :
    pySorted l₁ = pySorted l₂ := by
  haveI : IsTotal String pyStrLe := ⟨fun a b => charsLe_total a.data b.data⟩
  haveI : IsTrans String pyStrLe := ⟨fun a b c => charsLe_trans a.data b.data c.data⟩
  haveI : IsAntisymm String pyStrLe :=
    ⟨fun a b h1 h2 => by
      cases a; cases b
      exact congrArg String.mk (charsLe_antisymm _ _ h1 h2)⟩
  unfold pySorted
  exact List.eq_of_perm_of_sorted
    (((List.perm_insertionSort pyStrLe l₁).trans h).trans
      (List.perm_insertionSort pyStrLe l₂).symm)
    (List.sorted_insertionSort pyStrLe l₁)
    (List.sorted_insertionSort pyStrLe l₂)

theorem roundHalfEven_intCast (n : ℤ) : roundHalfEven (n : ℚ) = n := by
  unfold roundHalfEven
  norm_num

/-- Rounding an exactly representable value is the identity: if
`q * 10^d` is an integer then `pyRound q d = q`. -/
theorem pyRound_eq_self (q : ℚ) (d : ℕ) (n : ℤ) (h : q * 10 ^ d = (n : ℚ)) :
    pyRound q d = q := by
  unfold pyRound
  rw [h, roundHalfEven_intCast, ← h]
  field_simp


/-- C2: starting from a fresh `CircuitBreaker` with
`failure_threshold = 3`, three consecutive `record_failure` calls reach
`OPEN`; `can_execute` is `false` (state untouched) while at most
`timeout` has elapsed since the last failure; once more than `timeout`
has elapsed `can_execute` returns `true` and promotes the state to
`HALF_OPEN`; from there `record_success` yields `CLOSED` with
`failure_count = 0`, while `record_failure` returns to `OPEN` with
`last_failure_time` refreshed. -/
theorem circuitBreaker_threshold_script (timeout t1 t2 t3 t t' t4 : ℚ)
    (hwait : t - t3 ≤ timeout) (helapsed : t' - t3 > timeout) :
    (CircuitBreaker.after_three_failures timeout t1 t2 t3).state = .OPEN ∧
    (CircuitBreaker.after_three_failures timeout t1 t2 t3).last_failure_time
      = some t3 ∧
    (CircuitBreaker.after_three_failures timeout t1 t2 t3).can_execute t
      = (false, CircuitBreaker.after_three_failures timeout t1 t2 t3) ∧
    ((CircuitBreaker.after_three_failures timeout t1 t2 t3).can_execute t').1
      = true ∧
    ((CircuitBreaker.after_three_failures timeout t1 t2 t3).can_execute t').2.state
      = .HALF_OPEN ∧
    ((CircuitBreaker.after_three_failures timeout t1 t2
        t3).can_execute t').2.record_success.state = .CLOSED ∧
    ((CircuitBreaker.after_three_failures timeout t1 t2
        t3).can_execute t').2.record_success.failure_count = 0 ∧
    (((CircuitBreaker.after_three_failures timeout t1 t2
        t3).can_execute t').2.record_failure t4).state = .OPEN ∧
    (((CircuitBreaker.after_three_failures timeout t1 t2
        t3).can_execute t').2.record_failure t4).last_failure_time = some t4 := by
  have hwait' : ¬ t - t3 > timeout := not_lt.mpr hwait
  simp only [CircuitBreaker.after_three_failures, CircuitBreaker.init,
    CircuitBreaker.record_failure, CircuitBreaker.can_execute,
    CircuitBreaker.record_success]
  norm_num [hwait', helapsed]

/-- C2 witness: the script at `timeout = 60` with failures at instants
1, 2, 3, a denied probe at 50 and a granted probe at 64 followed by a
failure at 65. -/
theorem circuitBreaker_threshold_script_witness :
    (50 : ℚ) - 3 ≤ 60 ∧ (64 : ℚ) - 3 > 60 ∧
    ((CircuitBreaker.after_three_failures 60 1 2 3).state = .OPEN ∧
     (CircuitBreaker.after_three_failures 60 1 2 3).last_failure_time = some 3 ∧
     (CircuitBreaker.after_three_failures 60 1 2 3).can_execute 50
       = (false, CircuitBreaker.after_three_failures 60 1 2 3) ∧
     ((CircuitBreaker.after_three_failures 60 1 2 3).can_execute 64).1 = true ∧
     ((CircuitBreaker.after_three_failures 60 1 2 3).can_execute 64).2.state
       = .HALF_OPEN ∧
     ((CircuitBreaker.after_three_failures 60 1 2
         3).can_execute 64).2.record_success.state = .CLOSED ∧
     ((CircuitBreaker.after_three_failures 60 1 2
         3).can_execute 64).2.record_success.failure_count = 0 ∧
     (((CircuitBreaker.after_three_failures 60 1 2
         3).can_execute 64).2.record_failure 65).state = .OPEN ∧
     (((CircuitBreaker.after_three_failures 60 1 2
         3).can_execute 64).2.record_failure 65).last_failure_time = some 65) :=
  ⟨by norm_num, by norm_num,
   circuitBreaker_threshold_script 60 1 2 3 50 64 65 (by norm_num) (by norm_num)⟩

/-- C3: for `max_calls = 3`, `time_window = 60` and an initially empty
call list, three calls inside one window are admitted (each recording
its timestamp), the fourth inside the window is denied recording
nothing, and a call more than the window after the earliest recorded
timestamp is admitted again; moreover, on every check the stale
timestamps (at least `time_window` old — in particular all strictly
older than the window) are discarded and the call is admitted iff the
count remaining after the discard is below `max_calls`. -/
theorem rateLimiter_sliding_window (t1 t2 t3 t4 t5 : ℚ)
    (h12 : t1 ≤ t2) (h23 : t2 ≤ t3) (h34 : t3 ≤ t4)
    (hwin : t4 - t1 < 60) (hout : t5 - t1 > 60) :
    (∀ (rl : RateLimiter) (now : ℚ),
      ((rl.allow_call now).1 = true ↔ (rl.pruned now).length < rl.max_calls) ∧
      (∀ c ∈ (rl.allow_call now).2.calls, now - c < rl.time_window ∨ c = now) ∧
      ((rl.allow_call now).1 = true →
        (rl.allow_call now).2.calls = rl.pruned now ++ [now]) ∧
      ((rl.allow_call now).1 = false →
        (rl.allow_call now).2.calls = rl.pruned now)) ∧
    RateLimiter.allow_call (RateLimiter.init 3 60) t1 = (true, ⟨3, 60, [t1]⟩) ∧
    RateLimiter.allow_call ⟨3, 60, [t1]⟩ t2 = (true, ⟨3, 60, [t1, t2]⟩) ∧
    RateLimiter.allow_call ⟨3, 60, [t1, t2]⟩ t3 = (true, ⟨3, 60, [t1, t2, t3]⟩) ∧
    RateLimiter.allow_call ⟨3, 60, [t1, t2, t3]⟩ t4 = (false, ⟨3, 60, [t1, t2, t3]⟩) ∧
    (RateLimiter.allow_call ⟨3, 60, [t1, t2, t3]⟩ t5).1 = true := by
  have h21 : t2 - t1 < 60 := by linarith
  have h31 : t3 - t1 < 60 := by linarith
  have h32 : t3 - t2 < 60 := by linarith
  have h41 : t4 - t1 < 60 := hwin
  have h42 : t4 - t2 < 60 := by linarith
  have h43 : t4 - t3 < 60 := by linarith
  have h51 : ¬ t5 - t1 < 60 := by linarith
  refine ⟨?_, ?_, ?_, ?_, ?_, ?_⟩
  · intro rl now
    refine ⟨?_, ?_, ?_, ?_⟩
    · unfold RateLimiter.allow_call
      by_cases h : (rl.pruned now).length < rl.max_calls <;> simp [h]
    · intro c hc
      unfold RateLimiter.allow_call at hc
      by_cases h : (rl.pruned now).length < rl.max_calls
      · simp only [h, if_pos] at hc
        rcases List.mem_append.mp hc with hmem | hmem
        · left
          have := List.of_mem_filter hmem
          simpa using this
        · right; simpa using hmem
      · simp only [h, if_neg, not_false_iff] at hc
        left
        have := List.of_mem_filter hc
        simpa using this
    · intro htrue
      unfold RateLimiter.allow_call at htrue ⊢
      by_cases h : (rl.pruned now).length < rl.max_calls
      · simp [h]
      · simp [h] at htrue
    · intro hfalse
      unfold RateLimiter.allow_call at hfalse ⊢
      by_cases h : (rl.pruned now).length < rl.max_calls
      · simp [h] at hfalse
      · simp [h]
  · simp [RateLimiter.init, RateLimiter.allow_call, RateLimiter.pruned]
  · simp [RateLimiter.allow_call, RateLimiter.pruned, List.filter, h21]
  · simp [RateLimiter.allow_call, RateLimiter.pruned, List.filter, h31, h32]
  · simp [RateLimiter.allow_call, RateLimiter.pruned, List.filter, h41, h42, h43]
  · have hfilter :
        RateLimiter.pruned ⟨3, 60, [t1, t2, t3]⟩ t5
          = List.filter (fun c => decide (t5 - c < 60)) [t2, t3] := by
      simp [RateLimiter.pruned, List.filter, h51]
    have hlen : (RateLimiter.pruned ⟨3, 60, [t1, t2, t3]⟩ t5).length < 3 := by
      rw [hfilter]
      have := List.length_filter_le (fun c => decide (t5 - c < 60)) [t2, t3]
      simp at this ⊢
      omega
    unfold RateLimiter.allow_call
    simp only [hlen, if_pos]

/-- C3 witness: the script at instants 0, 1, 2, 3 and 61. -/
theorem rateLimiter_sliding_window_witness :
    (0 : ℚ) ≤ 1 ∧ (3 : ℚ) - 0 < 60 ∧ (61 : ℚ) - 0 > 60 ∧
    (RateLimiter.allow_call (RateLimiter.init 3 60) 0 = (true, ⟨3, 60, [0]⟩) ∧
     RateLimiter.allow_call ⟨3, 60, [0]⟩ 1 = (true, ⟨3, 60, [0, 1]⟩) ∧
     RateLimiter.allow_call ⟨3, 60, [0, 1]⟩ 2 = (true, ⟨3, 60, [0, 1, 2]⟩) ∧
     RateLimiter.allow_call ⟨3, 60, [0, 1, 2]⟩ 3 = (false, ⟨3, 60, [0, 1, 2]⟩) ∧
     (RateLimiter.allow_call ⟨3, 60, [0, 1, 2]⟩ 61).1 = true) :=
  ⟨by norm_num, by norm_num, by norm_num,
   ((rateLimiter_sliding_window 0 1 2 3 61 (by norm_num) (by norm_num)
      (by norm_num) (by norm_num) (by norm_num)).2)⟩

/-- C4: after the day-rollover check, `can_make_request` permits a
request iff `current_cost + estimated_cost <= daily_limit`; with
`daily_limit = 10.0`, recording `2.5` then `3.0` yields usage stats
`current_cost = 5.5`, `remaining_budget = 4.5`, `request_count = 2`;
and whenever the calendar date has advanced past `last_reset`, the
rollover check (run first by every operation) zeroes `current_cost` and
`request_count` and advances `last_reset` to the new date. -/
theorem costTracker_budget_ledger (ct : CostTracker) (today : ℕ) (est : ℚ) (d : ℕ) :
    ((ct.can_make_request today est).1 = true ↔
      (ct.reset_if_new_day today).current_cost + est ≤ ct.daily_limit) ∧
    (today > ct.last_reset →
      ct.reset_if_new_day today = ⟨ct.daily_limit, 0, 0, today⟩) ∧
    (let ct2 := ((CostTracker.init 10 d).record_request d 2.5).record_request d 3.0
     ct2.current_cost = 5.5 ∧ ct2.request_count = 2 ∧
     (ct2.get_usage_stats d).1.current_cost = 5.5 ∧
     (ct2.get_usage_stats d).1.remaining_budget = 4.5 ∧
     (ct2.get_usage_stats d).1.request_count = 2) := by
  have hdl : (ct.reset_if_new_day today).daily_limit = ct.daily_limit := by
    unfold CostTracker.reset_if_new_day
    split <;> rfl
  refine ⟨?_, ?_, ?_⟩
  · simp [CostTracker.can_make_request, hdl]
  · intro h
    unfold CostTracker.reset_if_new_day
    rw [if_pos h]
  · have hday : ¬ d > d := lt_irrefl d
    have hstep :
        ((CostTracker.init 10 d).record_request d 2.5).record_request d 3.0
          = ⟨10, 5.5, 2, d⟩ := by
      unfold CostTracker.init CostTracker.record_request CostTracker.reset_if_new_day
      simp [hday]
      norm_num
    have hr1 : pyRound (5.5 : ℚ) 4 = 5.5 := pyRound_eq_self _ _ 55000 (by norm_num)
    have hr2 : pyRound ((10 : ℚ) - 5.5) 4 = 4.5 := by
      rw [show ((10 : ℚ) - 5.5) = 4.5 by norm_num]
      exact pyRound_eq_self _ _ 45000 (by norm_num)
    simp only [hstep, CostTracker.get_usage_stats, CostTracker.reset_if_new_day]
    simp [hday, hr1, hr2]

/-- C4 witness: the rollover implication discharged at the concrete
ledger `⟨10, 5.5, 2, 7⟩` on day 8, plus the concrete-script conjuncts
at day 7. -/
theorem costTracker_budget_ledger_witness :
    (8 : ℕ) > 7 ∧
    (CostTracker.reset_if_new_day ⟨10, 5.5, 2, 7⟩ 8 = ⟨10, 0, 0, 8⟩ ∧
     (let ct2 := ((CostTracker.init 10 7).record_request 7 2.5).record_request 7 3.0
      ct2.current_cost = 5.5 ∧ ct2.request_count = 2 ∧
      (ct2.get_usage_stats 7).1.current_cost = 5.5 ∧
      (ct2.get_usage_stats 7).1.remaining_budget = 4.5 ∧
      (ct2.get_usage_stats 7).1.request_count = 2)) :=
  ⟨by norm_num,
   (costTracker_budget_ledger ⟨10, 5.5, 2, 7⟩ 8 0 7).2.1 (by norm_num),
   (costTracker_budget_ledger ⟨10, 5.5, 2, 7⟩ 8 0 7).2.2⟩

/-- C6: the cache key is a pure function of the normalized request
(equal normalized `cache_data` gives equal keys), it is invariant under
reordering the `skills` / `learning_goals` lists of the user context,
and it is invariant under re-casing the string fields (domain, skill
level, time availability, location). -/
theorem cacheKey_normalization :
    (∀ (d sl ta : String) (ctx : UserContext) (d' sl' ta' : String)
       (ctx' : UserContext),
      OpenAIIntegration.cache_data d sl ta ctx
        = OpenAIIntegration.cache_data d' sl' ta' ctx' →
      OpenAIIntegration.generate_cache_key d sl ta ctx
        = OpenAIIntegration.generate_cache_key d' sl' ta' ctx') ∧
    (∀ (d sl ta : String) (sk sk' g g' : List String) (loc av : String) (ey : ℤ),
      sk.Perm sk' → g.Perm g' →
      OpenAIIntegration.generate_cache_key d sl ta ⟨sk, g, loc, av, ey⟩
        = OpenAIIntegration.generate_cache_key d sl ta ⟨sk', g', loc, av, ey⟩) ∧
    (∀ (d d' sl sl' ta ta' loc loc' : String) (sk g : List String) (av : String)
       (ey : ℤ),
      pyLower d = pyLower d' → pyLower sl = pyLower sl' →
      pyLower ta = pyLower ta' → pyLower loc = pyLower loc' →
      OpenAIIntegration.generate_cache_key d sl ta ⟨sk, g, loc, av, ey⟩
        = OpenAIIntegration.generate_cache_key d' sl' ta' ⟨sk, g, loc', av, ey⟩) := by
  refine ⟨?_, ?_, ?_⟩
  · intro d sl ta ctx d' sl' ta' ctx' h
    unfold OpenAIIntegration.generate_cache_key
    rw [h]
  · intro d sl ta sk sk' g g' loc av ey hsk hg
    unfold OpenAIIntegration.generate_cache_key OpenAIIntegration.cache_data
    rw [pySorted_perm_eq sk sk' hsk, pySorted_perm_eq g g' hg]
  · intro d d' sl sl' ta ta' loc loc' sk g av ey hd hsl hta hloc
    unfold OpenAIIntegration.generate_cache_key OpenAIIntegration.cache_data
    rw [hd, hsl, hta, hloc]

/-- C6 witness: swapping the two skills and re-casing the scalar fields
of a concrete request leaves the key unchanged. -/
theorem cacheKey_normalization_witness :
    (["b", "a"] : List String).Perm ["a", "b"] ∧
    pyLower "Go" = pyLower "gO" ∧
    OpenAIIntegration.generate_cache_key "Go" "intermediate" "full-time"
        ⟨["b", "a"], [], "NYC", "", 2⟩
      = OpenAIIntegration.generate_cache_key "Go" "intermediate" "full-time"
        ⟨["a", "b"], [], "NYC", "", 2⟩ ∧
    OpenAIIntegration.generate_cache_key "Go" "intermediate" "full-time"
        ⟨["a", "b"], [], "NYC", "", 2⟩
      = OpenAIIntegration.generate_cache_key "gO" "Intermediate" "Full-Time"
        ⟨["a", "b"], [], "nyc", "", 2⟩ :=
  ⟨List.Perm.swap "a" "b" [], by decide,
   cacheKey_normalization.2.1 "Go" "intermediate" "full-time" ["b", "a"] ["a", "b"]
     [] [] "NYC" "" 2 (List.Perm.swap "a" "b" []) (List.Perm.refl []),
   cacheKey_normalization.2.2 "Go" "gO" "intermediate" "Intermediate" "full-time"
     "Full-Time" "NYC" "nyc" ["a", "b"] [] "" 2 (by decide) (by decide) (by decide)
     (by decide)⟩

/-- C5: on the raw text
`Sure! {"domain":"Python","modules":[{"title":"Basics"}]} Hope that helps!`
the response parser returns the roadmap with domain `"Python"` and
exactly one module, named `"Basics"` (with the post-processing
defaults); and in general the validator accepts a decoded candidate iff
it has a `domain` key and a non-empty `modules` list whose members are
all dicts carrying a `title` or a `name` key. -/
theorem parse_and_validate_response_spec :
    (OpenAIIntegration.parse_and_validate_response
        "Sure! \x7b\"domain\":\"Python\",\"modules\":[\x7b\"title\":\"Basics\"\x7d]\x7d Hope that helps!"
        "Python" "beginner" "part-time"
      = some (J.obj
          [("domain", J.str "Python"),
           ("modules", J.arr
             [J.obj
               [("title", J.str "Basics"),
                ("name", J.str "Basics"),
                ("completed", J.bool false)]]),
           ("progress", J.num 0)])) ∧
    (∀ data : List (String × J),
      OpenAIIntegration.validate_roadmap_structure data = true ↔
        (dictHas data "domain" = true ∧
         ∃ ms, dictFind data "modules" = some (J.arr ms) ∧ ms ≠ [] ∧
           ∀ m ∈ ms, ∃ mkvs, m = J.obj mkvs ∧
             (dictHas mkvs "title" = true ∨ dictHas mkvs "name" = true))) := by
  constructor
  · rfl
  · intro data
    by_cases hd : dictHas data "domain" = true
    · by_cases hm : dictHas data "modules" = true
      · have hsome : (dictFind data "modules").isSome := hm
        obtain ⟨v, hv⟩ := Option.isSome_iff_exists.mp hsome
        have hget : dictGetD data "modules" (J.arr []) = v := by
          unfold dictGetD
          rw [hv]
          rfl
        cases v with
        | arr ms =>
          have hred : OpenAIIntegration.validate_roadmap_structure data
              = (if ms.isEmpty = true then false
                 else ms.all fun m =>
                   match m with
                   | J.obj mkvs => dictHas mkvs "title" || dictHas mkvs "name"
                   | _ => false) := by
            unfold OpenAIIntegration.validate_roadmap_structure
            simp only [hd, hm, Bool.and_self, Bool.not_true, Bool.false_eq_true,
              if_false, hget]
          rw [hred]
          constructor
          · intro h
            by_cases he : ms.isEmpty = true
            · rw [if_pos he] at h
              exact absurd h (by simp)
            · rw [if_neg he] at h
              refine ⟨hd, ms, hv, by simpa using he, ?_⟩
              intro m hmem
              have hall := List.all_eq_true.mp h m hmem
              cases m with
              | obj mkvs =>
                refine ⟨mkvs, rfl, ?_⟩
                simpa using hall
              | null => simp at hall
              | bool b => simp at hall
              | num q => simp at hall
              | str s => simp at hall
              | arr xs => simp at hall
          · rintro ⟨-, ms', hfind', hne', hall'⟩
            rw [hv] at hfind'
            have hms : ms = ms' := by
              cases hfind'
              rfl
            subst hms
            rw [if_neg (by simpa using hne')]
            apply List.all_eq_true.mpr
            intro m hmem
            obtain ⟨mkvs, rfl, hor⟩ := hall' m hmem
            simpa using hor
        | null =>
          have hred : OpenAIIntegration.validate_roadmap_structure data = false := by
            unfold OpenAIIntegration.validate_roadmap_structure
            simp only [hd, hm, Bool.and_self, Bool.not_true, Bool.false_eq_true,
              if_false, hget]
          rw [hred]
          simp only [Bool.false_eq_true, false_iff]
          rintro ⟨-, ms', hfind', -, -⟩
          rw [hv] at hfind'
          cases hfind'
        | bool b =>
          have hred : OpenAIIntegration.validate_roadmap_structure data = false := by
            unfold OpenAIIntegration.validate_roadmap_structure
            simp only [hd, hm, Bool.and_self, Bool.not_true, Bool.false_eq_true,
              if_false, hget]
          rw [hred]
          simp only [Bool.false_eq_true, false_iff]
          rintro ⟨-, ms', hfind', -, -⟩
          rw [hv] at hfind'
          cases hfind'
        | num q =>
          have hred : OpenAIIntegration.validate_roadmap_structure data = false := by
            unfold OpenAIIntegration.validate_roadmap_structure
            simp only [hd, hm, Bool.and_self, Bool.not_true, Bool.false_eq_true,
              if_false, hget]
          rw [hred]
          simp only [Bool.false_eq_true, false_iff]
          rintro ⟨-, ms', hfind', -, -⟩
          rw [hv] at hfind'
          cases hfind'
        | str s =>
          have hred : OpenAIIntegration.validate_roadmap_structure data = false := by
            unfold OpenAIIntegration.validate_roadmap_structure
            simp only [hd, hm, Bool.and_self, Bool.not_true, Bool.false_eq_true,
              if_false, hget]
          rw [hred]
          simp only [Bool.false_eq_true, false_iff]
          rintro ⟨-, ms', hfind', -, -⟩
          rw [hv] at hfind'
          cases hfind'
        | obj kvs =>
          have hred : OpenAIIntegration.validate_roadmap_structure data = false := by
            unfold OpenAIIntegration.validate_roadmap_structure
            simp only [hd, hm, Bool.and_self, Bool.not_true, Bool.false_eq_true,
              if_false, hget]
          rw [hred]
          simp only [Bool.false_eq_true, false_iff]
          rintro ⟨-, ms', hfind', -, -⟩
          rw [hv] at hfind'
          cases hfind'
      · have hmf : dictHas data "modules" = false := by
          simpa using hm
        have hred : OpenAIIntegration.validate_roadmap_structure data = false := by
          unfold OpenAIIntegration.validate_roadmap_structure
          simp only [hmf, Bool.and_false, Bool.not_false, if_true]
        rw [hred]
        simp only [Bool.false_eq_true, false_iff]
        rintro ⟨-, ms', hfind', -, -⟩
        have hcontra : dictHas data "modules" = true := by
          unfold dictHas
          rw [hfind']
          rfl
        rw [hmf] at hcontra
        cases hcontra
    · have hdf : dictHas data "domain" = false := by
        simpa using hd
      have hred : OpenAIIntegration.validate_roadmap_structure data = false := by
        unfold OpenAIIntegration.validate_roadmap_structure
        simp only [hdf, Bool.false_and, Bool.not_false, if_true]
      rw [hred]
      simp only [Bool.false_eq_true, false_iff]
      rintro ⟨hcontra, -⟩
      rw [hdf] at hcontra
      cases hcontra

/-- C8: the fallback generator is deterministic in everything the claim
names — for any two invocations (modelled by two ambient instants) the
module list and `estimated_duration_weeks` are identical — and the
returned roadmap's `cost` is `0.0`.  The generator is a pure function
of `(domain, skill_level, time_availability, now)` touching neither the
client oracle nor any component state, which is the no-network part of
the contract. -/
theorem fallback_determinism (d sl ta : String) (t1 t2 t : ℚ) :
    (OpenAIIntegration.generate_enhanced_mock_roadmap d sl ta t1).get "modules"
      = (OpenAIIntegration.generate_enhanced_mock_roadmap d sl ta t2).get "modules" ∧
    (OpenAIIntegration.generate_enhanced_mock_roadmap d sl ta t1).get
        "estimated_duration_weeks"
      = (OpenAIIntegration.generate_enhanced_mock_roadmap d sl ta t2).get
        "estimated_duration_weeks" ∧
    (OpenAIIntegration.generate_enhanced_mock_roadmap d sl ta t).get "cost"
      = some (J.num 0) := ⟨rfl, rfl, rfl⟩

/-- C9: the fallback catalog filter is asymmetric exactly as coded —
`beginner` keeps beginner+intermediate entries, `intermediate` keeps
intermediate only, any other level keeps intermediate+advanced — and a
domain without a catalog is first given the synthesized 5-module
generic catalog (`Fundamentals`, `Core Concepts`,
`Advanced Applications`, `Professional Projects`, `Best Practices`)
before the same filter is applied. -/
theorem fallback_skill_filter :
    (∀ ms, filterBySkillLevel "beginner" ms
       = ms.filter fun m =>
           m.difficulty = "beginner" ∨ m.difficulty = "intermediate") ∧
    (∀ ms, filterBySkillLevel "intermediate" ms
       = ms.filter fun m => m.difficulty = "intermediate") ∧
    (∀ sl ms, sl ≠ "beginner" → sl ≠ "intermediate" →
       filterBySkillLevel sl ms
         = ms.filter fun m =>
             m.difficulty = "intermediate" ∨ m.difficulty = "advanced") ∧
    (∀ d sl, OpenAIIntegration.modules_data d sl
       = filterBySkillLevel sl (catalogFor d)) ∧
    (∀ d, domain_modules (pyReplaceChar (pyLower d) ' ' '_') = none →
       catalogFor d = genericCatalog d) ∧
    (∀ d, (genericCatalog d).map MockModuleData.title
       = [s!"{d} Fundamentals", s!"{d} Core Concepts",
          s!"{d} Advanced Applications", s!"{d} Professional Projects",
          s!"{d} Best Practices"]) := by
  refine ⟨fun ms => rfl, fun ms => by simp [filterBySkillLevel], ?_,
    fun d sl => rfl, ?_, fun d => rfl⟩
  · intro sl ms h1 h2
    simp [filterBySkillLevel, h1, h2]
  · intro d h
    unfold catalogFor
    rw [h]
    rfl

/-- C9 witness: the advanced filter discharged on a 3-entry catalog, and
the unknown-domain branch discharged at `"Rust"`. -/
theorem fallback_skill_filter_witness :
    ("advanced" : String) ≠ "beginner" ∧ ("advanced" : String) ≠ "intermediate" ∧
    domain_modules (pyReplaceChar (pyLower "Rust") ' ' '_') = none ∧
    (filterBySkillLevel "advanced"
        [⟨"A", 1, "beginner"⟩, ⟨"B", 2, "intermediate"⟩, ⟨"C", 3, "advanced"⟩]
      = [⟨"A", 1, "beginner"⟩, ⟨"B", 2, "intermediate"⟩,
         ⟨"C", 3, "advanced"⟩].filter fun m =>
           m.difficulty = "intermediate" ∨ m.difficulty = "advanced") ∧
    catalogFor "Rust" = genericCatalog "Rust" :=
  ⟨by decide, by decide, rfl,
   fallback_skill_filter.2.2.1 "advanced"
     [⟨"A", 1, "beginner"⟩, ⟨"B", 2, "intermediate"⟩, ⟨"C", 3, "advanced"⟩]
     (by decide) (by decide),
   fallback_skill_filter.2.2.2.2.1 "Rust" rfl⟩

/-- Helper: a truthy cached entry under the request's key is returned
unchanged with the whole state untouched. -/
theorem generate_roadmap_cache_hit (env : CallEnv) (st : IntegrationState)
    (d sl ta : String) (ctx : UserContext) (v : J)
    (hfind : dictFind st.cacheStore
      (OpenAIIntegration.generate_cache_key d sl ta ctx) = some v)
    (hv : v.truthy = true) :
    OpenAIIntegration.generate_roadmap env st d sl ta ctx true = (v, st) := by
  unfold OpenAIIntegration.generate_roadmap
  simp only [if_true, hfind, hv]

/-- Helper: when the client errors on every attempt, the retry loop
returns the enhanced mock roadmap and never writes the cache. -/
theorem attemptLoop_all_errors (env : CallEnv) (k d sl ta : String) (uc : Bool)
    (h : ∀ (n : ℕ) (c : String) (u : Option ℕ),
      env.clientBehavior n ≠ ClientResult.success c u) :
    ∀ (remaining attempt : ℕ) (st : IntegrationState),
      (attemptLoop env k d sl ta uc remaining attempt st).1
        = OpenAIIntegration.generate_enhanced_mock_roadmap d sl ta env.now ∧
      (attemptLoop env k d sl ta uc remaining attempt st).2.cacheStore
        = st.cacheStore := by
  intro remaining
  induction remaining with
  | zero =>
    intro attempt st
    rw [attemptLoop]
    cases hcb : env.clientBehavior attempt with
    | success c u => exact absurd hcb (h attempt c u)
    | rateLimitError => simp
    | timeoutError => simp
    | apiError => simp
    | otherError => simp
  | succ r ih =>
    intro attempt st
    rw [attemptLoop]
    cases hcb : env.clientBehavior attempt with
    | success c u => exact absurd hcb (h attempt c u)
    | rateLimitError => simpa using ih (attempt + 1) st
    | timeoutError => simpa using ih (attempt + 1) st
    | apiError =>
      simpa using ih (attempt + 1)
        { st with circuit_breaker := st.circuit_breaker.record_failure env.now }
    | otherError =>
      simpa using ih (attempt + 1)
        { st with circuit_breaker := st.circuit_breaker.record_failure env.now }

/-- Helper: the guarded path returns the enhanced mock roadmap (writing
no cache entry) whenever the client errors on every attempt, whichever
guard fires. -/
theorem generate_roadmap_uncached_all_errors (env : CallEnv) (st : IntegrationState)
    (k d sl ta : String) (uc : Bool)
    (h : ∀ (n : ℕ) (c : String) (u : Option ℕ),
      env.clientBehavior n ≠ ClientResult.success c u) :
    (generate_roadmap_uncached env st k d sl ta uc).1
      = OpenAIIntegration.generate_enhanced_mock_roadmap d sl ta env.now ∧
    (generate_roadmap_uncached env st k d sl ta uc).2.cacheStore = st.cacheStore := by
  unfold generate_roadmap_uncached
  dsimp only
  repeat' split
  all_goals try exact ⟨rfl, rfl⟩
  all_goals
    exact ⟨(attemptLoop_all_errors env k d sl ta uc h env.max_retries 0 _).1,
           (attemptLoop_all_errors env k d sl ta uc h env.max_retries 0 _).2⟩

/-- Helper: with no cached entry under the request's key, an
all-errors client run of `generate_roadmap` produces the enhanced mock
roadmap and leaves the cache unwritten. -/
theorem generate_roadmap_all_errors (env : CallEnv) (st : IntegrationState)
    (d sl ta : String) (ctx : UserContext) (uc : Bool)
    (hclient : ∀ (n : ℕ) (c : String) (u : Option ℕ),
      env.clientBehavior n ≠ ClientResult.success c u)
    (hmiss : dictFind st.cacheStore
      (OpenAIIntegration.generate_cache_key d sl ta ctx) = none) :
    (OpenAIIntegration.generate_roadmap env st d sl ta ctx uc).1
      = OpenAIIntegration.generate_enhanced_mock_roadmap d sl ta env.now ∧
    (OpenAIIntegration.generate_roadmap env st d sl ta ctx uc).2.cacheStore
      = st.cacheStore := by
  unfold OpenAIIntegration.generate_roadmap
  cases uc with
  | false =>
    simp only [Bool.false_eq_true, if_false]
    exact generate_roadmap_uncached_all_errors env st _ d sl ta false hclient
  | true =>
    simp only [if_true, hmiss]
    exact generate_roadmap_uncached_all_errors env st _ d sl ta true hclient

/-- Helper: the enhanced mock roadmap is marked
`generated_by = "enhanced_mock_generator"`. -/
theorem mock_generated_by (d sl ta : String) (t : ℚ) :
    (OpenAIIntegration.generate_enhanced_mock_roadmap d sl ta t).get "generated_by"
      = some (J.str "enhanced_mock_generator") := rfl

/-- Helper: the enhanced mock roadmap stamps `generated_at` with the
instant of the call. -/
theorem mock_generated_at (d sl ta : String) (t : ℚ) :
    (OpenAIIntegration.generate_enhanced_mock_roadmap d sl ta t).get "generated_at"
      = some (J.num t) := rfl

/-- C1 (amended): `generate_roadmap` always returns a roadmap value —
the embedding is a total function, every client behaviour included —
and when the client errors on every attempt and the request is not
answered from the response cache (no entry under its key), the returned
roadmap is the enhanced mock roadmap, whose `generated_by` is
`"enhanced_mock_generator"` and in particular not the AI marker
`"openai"`. -/
theorem generate_roadmap_total_degradation (env : CallEnv) (st : IntegrationState)
    (d sl ta : String) (ctx : UserContext) (uc : Bool)
    (hclient : ∀ (n : ℕ) (c : String) (u : Option ℕ),
      env.clientBehavior n ≠ ClientResult.success c u)
    (hmiss : dictFind st.cacheStore
      (OpenAIIntegration.generate_cache_key d sl ta ctx) = none) :
    (∃ r st', OpenAIIntegration.generate_roadmap env st d sl ta ctx uc = (r, st')) ∧
    (OpenAIIntegration.generate_roadmap env st d sl ta ctx uc).1
      = OpenAIIntegration.generate_enhanced_mock_roadmap d sl ta env.now ∧
    (OpenAIIntegration.generate_roadmap env st d sl ta ctx uc).1.get "generated_by"
      = some (J.str "enhanced_mock_generator") ∧
    (OpenAIIntegration.generate_roadmap env st d sl ta ctx uc).1.get "generated_by"
      ≠ some (J.str "openai") := by
  have h := generate_roadmap_all_errors env st d sl ta ctx uc hclient hmiss
  refine ⟨⟨_, _, rfl⟩, h.1, ?_, ?_⟩
  · rw [h.1]
    exact mock_generated_by d sl ta env.now
  · rw [h.1, mock_generated_by d sl ta env.now]
    intro hcontra
    exact absurd (J.str.inj (Option.some.inj hcontra)) (by decide)

/-- C1 counterexample: with the cache already holding a truthy roadmap
whose `generated_by` is the AI marker `"openai"` under the request's
key, a `generate_roadmap` call whose client errors on every attempt
still returns that AI-marked roadmap — so, as stated (for every input
and state), the claim's `generated_by`-is-not-the-AI-value conclusion
is false. -/
theorem generate_roadmap_warm_cache_counterexample :
    (∀ (n : ℕ) (c : String) (u : Option ℕ),
      (⟨100, 5, true, fun _ => ClientResult.apiError, 3⟩ : CallEnv).clientBehavior n
        ≠ ClientResult.success c u) ∧
    (OpenAIIntegration.generate_roadmap
        ⟨100, 5, true, fun _ => ClientResult.apiError, 3⟩
        ⟨RateLimiter.init 60 60, CostTracker.init 50 5, CircuitBreaker.init 5 60,
         [(OpenAIIntegration.generate_cache_key "Go" "intermediate" "full-time"
             ⟨[], [], "", "", 0⟩,
           J.obj [("generated_by", J.str "openai")])]⟩
        "Go" "intermediate" "full-time" ⟨[], [], "", "", 0⟩ true).1.get "generated_by"
      = some (J.str "openai") :=
  ⟨fun _ _ _ h => ClientResult.noConfusion h, rfl⟩

/-- C7 (amended): when `use_cache` is true and the cache holds a
(truthy) entry under the request's key, `generate_roadmap` returns that
entry unchanged and the whole state — rate limiter, cost tracker,
circuit breaker and cache — is untouched; consequently a second
successive call for the same request (under any environment) returns
the identical value with the original entry's metadata.  Without a
pre-existing entry the idempotence consequence fails, because fallback
results are never written to the cache (see the counterexample). -/
theorem cache_hit_bypass_idempotence (env env' : CallEnv) (st : IntegrationState)
    (d sl ta : String) (ctx : UserContext) (v : J)
    (hfind : dictFind st.cacheStore
      (OpenAIIntegration.generate_cache_key d sl ta ctx) = some v)
    (hv : v.truthy = true) :
    OpenAIIntegration.generate_roadmap env st d sl ta ctx true = (v, st) ∧
    (OpenAIIntegration.generate_roadmap env st d sl ta ctx true).2.rate_limiter
      = st.rate_limiter ∧
    (OpenAIIntegration.generate_roadmap env st d sl ta ctx true).2.cost_tracker
      = st.cost_tracker ∧
    (OpenAIIntegration.generate_roadmap env st d sl ta ctx true).2.circuit_breaker
      = st.circuit_breaker ∧
    (OpenAIIntegration.generate_roadmap env st d sl ta ctx true).2.cacheStore
      = st.cacheStore ∧
    OpenAIIntegration.generate_roadmap env'
        (OpenAIIntegration.generate_roadmap env st d sl ta ctx true).2 d sl ta ctx
        true
      = (v, st) := by
  have h := generate_roadmap_cache_hit env st d sl ta ctx v hfind hv
  refine ⟨h, ?_, ?_, ?_, ?_, ?_⟩ <;> rw [h]
  exact generate_roadmap_cache_hit env' st d sl ta ctx v hfind hv

/-- C7 counterexample: from an empty cache with an always-erroring
client, two successive `generate_roadmap` calls with `use_cache = true`
(at instants 0 and then 1) both fall back, nothing is cached, and the
two returned roadmaps differ in `generated_at` — so the two calls do
not return identical values carrying the first call's metadata. -/
theorem successive_fallback_calls_counterexample :
    (OpenAIIntegration.generate_roadmap
        ⟨0, 5, true, fun _ => ClientResult.apiError, 3⟩
        ⟨RateLimiter.init 60 60, CostTracker.init 50 5, CircuitBreaker.init 5 60, []⟩
        "Go" "intermediate" "full-time" ⟨[], [], "", "", 0⟩ true).1.get "generated_at"
      = some (J.num 0) ∧
    (OpenAIIntegration.generate_roadmap
        ⟨1, 5, true, fun _ => ClientResult.apiError, 3⟩
        (OpenAIIntegration.generate_roadmap
          ⟨0, 5, true, fun _ => ClientResult.apiError, 3⟩
          ⟨RateLimiter.init 60 60, CostTracker.init 50 5, CircuitBreaker.init 5 60,
           []⟩
          "Go" "intermediate" "full-time" ⟨[], [], "", "", 0⟩ true).2
        "Go" "intermediate" "full-time" ⟨[], [], "", "", 0⟩ true).1.get "generated_at"
      = some (J.num 1) ∧
    (OpenAIIntegration.generate_roadmap
        ⟨0, 5, true, fun _ => ClientResult.apiError, 3⟩
        ⟨RateLimiter.init 60 60, CostTracker.init 50 5, CircuitBreaker.init 5 60, []⟩
        "Go" "intermediate" "full-time" ⟨[], [], "", "", 0⟩ true).1
      ≠ (OpenAIIntegration.generate_roadmap
          ⟨1, 5, true, fun _ => ClientResult.apiError, 3⟩
          (OpenAIIntegration.generate_roadmap
            ⟨0, 5, true, fun _ => ClientResult.apiError, 3⟩
            ⟨RateLimiter.init 60 60, CostTracker.init 50 5, CircuitBreaker.init 5 60,
             []⟩
            "Go" "intermediate" "full-time" ⟨[], [], "", "", 0⟩ true).2
          "Go" "intermediate" "full-time" ⟨[], [], "", "", 0⟩ true).1 := by
  have hclient : ∀ (n : ℕ) (c : String) (u : Option ℕ),
      ((⟨0, 5, true, fun _ => ClientResult.apiError, 3⟩ : CallEnv).clientBehavior n)
        ≠ ClientResult.success c u := fun _ _ _ h => ClientResult.noConfusion h
  have hclient' : ∀ (n : ℕ) (c : String) (u : Option ℕ),
      ((⟨1, 5, true, fun _ => ClientResult.apiError, 3⟩ : CallEnv).clientBehavior n)
        ≠ ClientResult.success c u := fun _ _ _ h => ClientResult.noConfusion h
  have h1 := generate_roadmap_all_errors
    ⟨0, 5, true, fun _ => ClientResult.apiError, 3⟩
    ⟨RateLimiter.init 60 60, CostTracker.init 50 5, CircuitBreaker.init 5 60, []⟩
    "Go" "intermediate" "full-time" ⟨[], [], "", "", 0⟩ true hclient rfl
  have hmiss2 : dictFind
      (OpenAIIntegration.generate_roadmap
        ⟨0, 5, true, fun _ => ClientResult.apiError, 3⟩
        ⟨RateLimiter.init 60 60, CostTracker.init 50 5, CircuitBreaker.init 5 60, []⟩
        "Go" "intermediate" "full-time" ⟨[], [], "", "", 0⟩ true).2.cacheStore
      (OpenAIIntegration.generate_cache_key "Go" "intermediate" "full-time"
        ⟨[], [], "", "", 0⟩) = none := by
    rw [h1.2]
    rfl
  have h2 := generate_roadmap_all_errors
    ⟨1, 5, true, fun _ => ClientResult.apiError, 3⟩
    (OpenAIIntegration.generate_roadmap
      ⟨0, 5, true, fun _ => ClientResult.apiError, 3⟩
      ⟨RateLimiter.init 60 60, CostTracker.init 50 5, CircuitBreaker.init 5 60, []⟩
      "Go" "intermediate" "full-time" ⟨[], [], "", "", 0⟩ true).2
    "Go" "intermediate" "full-time" ⟨[], [], "", "", 0⟩ true hclient' hmiss2
  have e1 : (OpenAIIntegration.generate_roadmap
      ⟨0, 5, true, fun _ => ClientResult.apiError, 3⟩
      ⟨RateLimiter.init 60 60, CostTracker.init 50 5, CircuitBreaker.init 5 60, []⟩
      "Go" "intermediate" "full-time" ⟨[], [], "", "", 0⟩ true).1.get "generated_at"
      = some (J.num 0) := by
    rw [h1.1]
    exact mock_generated_at "Go" "intermediate" "full-time" _
  have e2 : (OpenAIIntegration.generate_roadmap
      ⟨1, 5, true, fun _ => ClientResult.apiError, 3⟩
      (OpenAIIntegration.generate_roadmap
        ⟨0, 5, true, fun _ => ClientResult.apiError, 3⟩
        ⟨RateLimiter.init 60 60, CostTracker.init 50 5, CircuitBreaker.init 5 60, []⟩
        "Go" "intermediate" "full-time" ⟨[], [], "", "", 0⟩ true).2
      "Go" "intermediate" "full-time" ⟨[], [], "", "", 0⟩ true).1.get "generated_at"
      = some (J.num 1) := by
    rw [h2.1]
    exact mock_generated_at "Go" "intermediate" "full-time" _
  refine ⟨e1, e2, ?_⟩
  intro heq
  rw [heq] at e1
  rw [e2] at e1
  exact absurd (J.num.inj (Option.some.inj e1)) (by norm_num)

/-- C10: the cache key is computed only from the domain, skill level,
time availability and the `skills` / `learning_goals` / `location`
fields of the user context — two requests that agree there but differ
in `availability_hours`, `experience_years` (or both) produce the same
key — and consequently, with `use_cache = true`, a cached roadmap
stored under the first request's key answers the second request. -/
theorem cacheKey_ignores_other_context_fields :
    (∀ (d sl ta : String) (sk g : List String) (loc av₁ av₂ : String) (ey₁ ey₂ : ℤ),
      OpenAIIntegration.generate_cache_key d sl ta ⟨sk, g, loc, av₁, ey₁⟩
        = OpenAIIntegration.generate_cache_key d sl ta ⟨sk, g, loc, av₂, ey₂⟩) ∧
    (∀ (env : CallEnv) (st : IntegrationState) (d sl ta : String)
       (ctx₁ ctx₂ : UserContext) (v : J),
      ctx₁.skills = ctx₂.skills → ctx₁.learning_goals = ctx₂.learning_goals →
      ctx₁.location = ctx₂.location →
      dictFind st.cacheStore
        (OpenAIIntegration.generate_cache_key d sl ta ctx₁) = some v →
      v.truthy = true →
      OpenAIIntegration.generate_roadmap env st d sl ta ctx₂ true = (v, st)) := by
  constructor
  · intro d sl ta sk g loc av₁ av₂ ey₁ ey₂
    rfl
  · intro env st d sl ta ctx₁ ctx₂ v hs hg hl hfind hv
    have hkey : OpenAIIntegration.generate_cache_key d sl ta ctx₂
        = OpenAIIntegration.generate_cache_key d sl ta ctx₁ := by
      unfold OpenAIIntegration.generate_cache_key OpenAIIntegration.cache_data
      rw [hs, hg, hl]
    rw [← hkey] at hfind
    exact generate_roadmap_cache_hit env st d sl ta ctx₂ v hfind hv

/-- C10 witness: two contexts agreeing on skills/goals/location but
with different `availability_hours` and `experience_years` collide to
the same key, and the roadmap cached for the first answers the
second. -/
theorem cacheKey_ignores_other_context_fields_witness :
    (OpenAIIntegration.generate_cache_key "Go" "intermediate" "full-time"
        ⟨["a"], ["g"], "x", "10h", 1⟩
      = OpenAIIntegration.generate_cache_key "Go" "intermediate" "full-time"
        ⟨["a"], ["g"], "x", "", 7⟩) ∧
    OpenAIIntegration.generate_roadmap
        ⟨0, 0, true, fun _ => ClientResult.apiError, 3⟩
        ⟨RateLimiter.init 60 60, CostTracker.init 50 0, CircuitBreaker.init 5 60,
         [(OpenAIIntegration.generate_cache_key "Go" "intermediate" "full-time"
             ⟨["a"], ["g"], "x", "10h", 1⟩,
           J.str "cached roadmap")]⟩
        "Go" "intermediate" "full-time" ⟨["a"], ["g"], "x", "", 7⟩ true
      = (J.str "cached roadmap",
         ⟨RateLimiter.init 60 60, CostTracker.init 50 0, CircuitBreaker.init 5 60,
          [(OpenAIIntegration.generate_cache_key "Go" "intermediate" "full-time"
              ⟨["a"], ["g"], "x", "10h", 1⟩,
            J.str "cached roadmap")]⟩) :=
  ⟨cacheKey_ignores_other_context_fields.1 "Go" "intermediate" "full-time"
     ["a"] ["g"] "x" "10h" "" 1 7,
   cacheKey_ignores_other_context_fields.2
     ⟨0, 0, true, fun _ => ClientResult.apiError, 3⟩
     ⟨RateLimiter.init 60 60, CostTracker.init 50 0, CircuitBreaker.init 5 60,
      [(OpenAIIntegration.generate_cache_key "Go" "intermediate" "full-time"
          ⟨["a"], ["g"], "x", "10h", 1⟩,
        J.str "cached roadmap")]⟩
     "Go" "intermediate" "full-time"
     ⟨["a"], ["g"], "x", "10h", 1⟩ ⟨["a"], ["g"], "x", "", 7⟩
     (J.str "cached roadmap") rfl rfl rfl rfl rfl⟩

/-- C1 witness: an always-`otherError` client against an empty cache —
the hypotheses hold concretely and the call degrades to the enhanced
mock roadmap. -/
theorem generate_roadmap_total_degradation_witness :
    (∀ (n : ℕ) (c : String) (u : Option ℕ),
      (⟨7, 4, true, fun _ => ClientResult.otherError, 3⟩ : CallEnv).clientBehavior n
        ≠ ClientResult.success c u) ∧
    dictFind
      (⟨RateLimiter.init 60 60, CostTracker.init 50 4, CircuitBreaker.init 5 60,
        []⟩ : IntegrationState).cacheStore
      (OpenAIIntegration.generate_cache_key "Go" "intermediate" "full-time"
        ⟨[], [], "", "", 0⟩) = none ∧
    ((OpenAIIntegration.generate_roadmap
        ⟨7, 4, true, fun _ => ClientResult.otherError, 3⟩
        ⟨RateLimiter.init 60 60, CostTracker.init 50 4, CircuitBreaker.init 5 60, []⟩
        "Go" "intermediate" "full-time" ⟨[], [], "", "", 0⟩ true).1
      = OpenAIIntegration.generate_enhanced_mock_roadmap "Go" "intermediate"
          "full-time" (⟨7, 4, true, fun _ => ClientResult.otherError, 3⟩ : CallEnv).now ∧
    (OpenAIIntegration.generate_roadmap
        ⟨7, 4, true, fun _ => ClientResult.otherError, 3⟩
        ⟨RateLimiter.init 60 60, CostTracker.init 50 4, CircuitBreaker.init 5 60, []⟩
        "Go" "intermediate" "full-time" ⟨[], [], "", "", 0⟩ true).1.get "generated_by"
      = some (J.str "enhanced_mock_generator") ∧
    (OpenAIIntegration.generate_roadmap
        ⟨7, 4, true, fun _ => ClientResult.otherError, 3⟩
        ⟨RateLimiter.init 60 60, CostTracker.init 50 4, CircuitBreaker.init 5 60, []⟩
        "Go" "intermediate" "full-time" ⟨[], [], "", "", 0⟩ true).1.get "generated_by"
      ≠ some (J.str "openai")) :=
  ⟨fun _ _ _ h => ClientResult.noConfusion h, rfl,
   (generate_roadmap_total_degradation
     ⟨7, 4, true, fun _ => ClientResult.otherError, 3⟩
     ⟨RateLimiter.init 60 60, CostTracker.init 50 4, CircuitBreaker.init 5 60, []⟩
     "Go" "intermediate" "full-time" ⟨[], [], "", "", 0⟩ true
     (fun _ _ _ h => ClientResult.noConfusion h) rfl).2⟩

/-- C7 witness: with a truthy roadmap cached under the request's key,
the call returns it with the state untouched and a second call returns
the same value. -/
theorem cache_hit_bypass_idempotence_witness :
    dictFind
      (⟨RateLimiter.init 60 60, CostTracker.init 50 0, CircuitBreaker.init 5 60,
        [(OpenAIIntegration.generate_cache_key "Go" "intermediate" "full-time"
            ⟨[], [], "", "", 0⟩,
          J.str "the cached roadmap")]⟩ : IntegrationState).cacheStore
      (OpenAIIntegration.generate_cache_key "Go" "intermediate" "full-time"
        ⟨[], [], "", "", 0⟩) = some (J.str "the cached roadmap") ∧
    (J.str "the cached roadmap").truthy = true ∧
    OpenAIIntegration.generate_roadmap
        ⟨0, 0, true, fun _ => ClientResult.apiError, 3⟩
        ⟨RateLimiter.init 60 60, CostTracker.init 50 0, CircuitBreaker.init 5 60,
         [(OpenAIIntegration.generate_cache_key "Go" "intermediate" "full-time"
             ⟨[], [], "", "", 0⟩,
           J.str "the cached roadmap")]⟩
        "Go" "intermediate" "full-time" ⟨[], [], "", "", 0⟩ true
      = (J.str "the cached roadmap",
         ⟨RateLimiter.init 60 60, CostTracker.init 50 0, CircuitBreaker.init 5 60,
          [(OpenAIIntegration.generate_cache_key "Go" "intermediate" "full-time"
              ⟨[], [], "", "", 0⟩,
            J.str "the cached roadmap")]⟩) :=
  ⟨rfl, rfl,
   (cache_hit_bypass_idempotence
     ⟨0, 0, true, fun _ => ClientResult.apiError, 3⟩
     ⟨1, 1, false, fun _ => ClientResult.apiError, 0⟩
     ⟨RateLimiter.init 60 60, CostTracker.init 50 0, CircuitBreaker.init 5 60,
      [(OpenAIIntegration.generate_cache_key "Go" "intermediate" "full-time"
          ⟨[], [], "", "", 0⟩,
        J.str "the cached roadmap")]⟩
     "Go" "intermediate" "full-time" ⟨[], [], "", "", 0⟩
     (J.str "the cached roadmap") rfl rfl).1⟩
